import Mathlib

/-! Alert synchronisation service: the sync orchestrator.

A shallow embedding of `alert-service/internal/service/services.go`
(`AlertService.PerformSync`, `generateRandomIP`, `getRandomEnrichmentType`).

The orchestrator talks to two interfaces (`APIClientInterface`,
`AlertStorageInterface`), to the context, to the clock, to `math/rand` and to
`encoding/json`.  Their answers are not decided by the orchestrator, so they
are the fields of an environment `Env`; the orchestrator is a function of the
environment that threads a `World` recording every interface call and every
log line it makes, in order.
-/

namespace AlertSystem

/-! ## Values -/

/-- Go `time.Time`, reduced to what the code observes: seconds and nanoseconds
since January 1, year 1, 00:00:00 UTC, and the zone offset (seconds east of
UTC) of its location. -/
structure Time where
  sec : Int
  nsec : Nat
  offset : Int
deriving DecidableEq, Repr

/-- The zero value `time.Time{}`. -/
def Time.zero : Time := ⟨0, 0, 0⟩

/-- Go `Time.IsZero`: the instant is January 1, year 1, 00:00:00 UTC (the
location is not looked at). -/
def Time.IsZero (t : Time) : Bool := t.sec == 0 && t.nsec == 0

/-- Go `error` values met in the service: `errors.New`, the `*fmt.wrapError`
made by `fmt.Errorf` with one `%w`, the two context errors, and the sentinel
`sql.ErrNoRows` (a value of its own: an error that only has the same text is
an `errorString`, and `==` tells the two apart). -/
inductive GoError where
  | errorString (s : String)
  | wrapError (msg : String) (err : GoError)
  | Canceled
  | DeadlineExceeded
  | sqlErrNoRows
deriving DecidableEq, Repr

/-- The `Error()` method. -/
def GoError.Error : GoError → String
  | .errorString s => s
  | .wrapError msg _ => msg
  | .Canceled => "context canceled"
  | .DeadlineExceeded => "context deadline exceeded"
  | .sqlErrNoRows => "sql: no rows in result set"

/-- The `Unwrap()` method. -/
def GoError.Unwrap : GoError → Option GoError
  | .wrapError _ err => some err
  | _ => none

/-- Go `fmt.Errorf(lead + "%w", err)`: the message is the lead text followed by
`err.Error()`, and the result unwraps to `err`. -/
def Errorf (lead : String) (err : GoError) : GoError :=
  .wrapError (lead ++ err.Error) err

/-- The struct `external.ExternalAlert`. -/
structure ExternalAlert where
  Source : String
  Severity : String
  Description : String
  CreatedAt : Time
deriving DecidableEq, Repr

/-- A value stored in the `map[string]interface{}` handed to `json.Marshal`. -/
inductive JVal where
  | str (s : String)
  | time (t : Time)
deriving DecidableEq, Repr

/-- The arguments of one `AlertStorageInterface.CreateAlert` call (the context
apart), in the order of the signature. -/
structure CreateAlertArgs where
  source : String
  severity : String
  description : String
  wholeEvent : String
  enrichmentType : String
  ipAddress : String
  createdAt : Time
deriving DecidableEq, Repr

/-- One call on `APIClientInterface` or `AlertStorageInterface`. -/
inductive Call where
  | CheckHealth
  | GetLastSyncTime
  | FetchAllAlerts
  | FetchAlertsSince (since : Time)
  | CreateAlert (args : CreateAlertArgs)
  | UpdateLastSyncTime (t : Time)
deriving DecidableEq, Repr

/-- One `log.Println` / `log.Printf` line of `PerformSync`, named after its
format string and carrying its arguments. -/
inductive LogLine where
  | Starting
  | HealthCheckFailed (err : GoError)
  | CouldNotGetLastSync (err : GoError)
  | LastSyncTime (t : Time)
  | FetchingAll
  | FetchingSince (t : Time)
  | Fetched (n : Nat)
  | NoNewAlerts
  | Cancelled (successCount : Nat)
  | MarshalFailed (err : GoError)
  | ErrorStoring (err : GoError)
  | UpdateFailed (err : GoError)
  | Synced (successCount : Nat) (total : Nat)
deriving DecidableEq, Repr

/-! ## Environment and world -/

/-- What the collaborators answer during one pass.  Answers that can differ
from call to call are indexed by the ordinal of the call (0-based):
`CreateAlert n args` is the answer to the `n`-th `CreateAlert` call, `ctxErr n`
what the `n`-th per-record check of `ctx.Err()` sees, `Now n` the `n`-th
reading of `time.Now()`, `rand n` the `n`-th raw draw of the generator. -/
structure Env where
  CheckHealth : Option GoError
  GetLastSyncTime : Time × Option GoError
  FetchAllAlerts : List ExternalAlert × Option GoError
  FetchAlertsSince : Time → List ExternalAlert × Option GoError
  CreateAlert : Nat → CreateAlertArgs → Option GoError
  UpdateLastSyncTime : Time → Option GoError
  ctxErr : Nat → Option GoError
  Marshal : List (String × JVal) → String × Option GoError
  Now : Nat → Time
  rand : Nat → Nat

/-- The observable effects of a pass so far. -/
structure World where
  trace : List Call
  logs : List LogLine
  ctxChecks : Nat
  createCalls : Nat
  nowCalls : Nat
  randCalls : Nat
deriving DecidableEq, Repr

/-- The world before a pass. -/
def World.init : World := ⟨[], [], 0, 0, 0, 0⟩

/-- Record an interface call. -/
def World.call (w : World) (c : Call) : World := { w with trace := w.trace ++ [c] }

/-- Record a log line. -/
def World.log (w : World) (l : LogLine) : World := { w with logs := w.logs ++ [l] }

/-- Reading `time.Now()`. -/
def timeNow (env : Env) (w : World) : Time × World :=
  (env.Now w.nowCalls, { w with nowCalls := w.nowCalls + 1 })

/-- Go `rand.Intn(n)`: panics (`none`) when `n <= 0`, otherwise a value of
`[0, n)` taken from the next raw draw. -/
def Intn (env : Env) (n : Nat) (w : World) : Option (Nat × World) :=
  if n = 0 then none
  else some (env.rand w.randCalls % n, { w with randCalls := w.randCalls + 1 })

/-! ## services.go -/

/-- The `%d` verb on a non-negative int. -/
def fmtD (n : Nat) : String := String.mk (Nat.toDigits 10 n)

/-- Source: `generateRandomIP`: four `rand.Intn(256)` draws, left to right,
printed with `"%d.%d.%d.%d"`.  `none` is a panic. -/
def generateRandomIP (env : Env) (w : World) : Option (String × World) :=
  match Intn env 256 w with
  | none => none
  | some (a, w) =>
    match Intn env 256 w with
    | none => none
    | some (b, w) =>
      match Intn env 256 w with
      | none => none
      | some (c, w) =>
        match Intn env 256 w with
        | none => none
        | some (d, w) =>
          some (fmtD a ++ "." ++ fmtD b ++ "." ++ fmtD c ++ "." ++ fmtD d, w)

/-- The slice literal of `getRandomEnrichmentType`. -/
def alertTypes : List String :=
  ["geo_location", "threat_intel", "user_context", "network_analysis", "behavioral_analysis"]

/-- Source: `getRandomEnrichmentType`: `alertTypes[rand.Intn(len(alertTypes))]`.
`none` is a panic (of `Intn` or of the index expression). -/
def getRandomEnrichmentType (env : Env) (w : World) : Option (String × World) :=
  match Intn env alertTypes.length w with
  | none => none
  | some (i, w) =>
    match alertTypes[i]? with
    | none => none
    | some s => some (s, w)

/-- How the `for ... range externalAlerts` loop of `PerformSync` is left. -/
inductive LoopExit where
  | done (successCount : Nat)
  | ret (err : Option GoError)
  | panic
deriving DecidableEq, Repr

/-- The body of `for _, extAlert := range externalAlerts` in `PerformSync`,
iterated over the records left.  The two reads of `ctx.Err()` in the
cancellation branch are one reading: once `Err` is non-nil, successive calls
return the same error. -/
def processAlerts (env : Env) : List ExternalAlert → Nat → World → LoopExit × World
  | [], successCount, w => (.done successCount, w)
  | extAlert :: rest, successCount, w =>
    let cerr := env.ctxErr w.ctxChecks
    let w := { w with ctxChecks := w.ctxChecks + 1 }
    match cerr with
    | some e => (.ret (some e), w.log (.Cancelled successCount))
    | none =>
      let (now, w) := timeNow env w
      let (json, merr) := env.Marshal
        [("source", .str extAlert.Source),
         ("severity", .str extAlert.Severity),
         ("description", .str extAlert.Description),
         ("created_at", .time extAlert.CreatedAt),
         ("synced_at", .time now)]
      let (wholeEventJSON, w) :=
        match merr with
        | some e => ("\x7b\x7d", w.log (.MarshalFailed e))
        | none => (json, w)
      match getRandomEnrichmentType env w with
      | none => (.panic, w)
      | some (enrichmentType, w) =>
        match generateRandomIP env w with
        | none => (.panic, w)
        | some (ipAddress, w) =>
          let args : CreateAlertArgs :=
            ⟨extAlert.Source, extAlert.Severity, extAlert.Description, wholeEventJSON,
              enrichmentType, ipAddress, extAlert.CreatedAt⟩
          let err := env.CreateAlert w.createCalls args
          let w := { w.call (.CreateAlert args) with createCalls := w.createCalls + 1 }
          match err with
          | some e => processAlerts env rest successCount (w.log (.ErrorStoring e))
          | none => processAlerts env rest (successCount + 1) w

/-- How a call of `PerformSync` ends: it returns its `error` (`none` is `nil`),
or it panics. -/
inductive Result where
  | returned (err : Option GoError)
  | panicked
deriving DecidableEq, Repr

/-- Source: `AlertService.PerformSync`. -/
def PerformSync (env : Env) (w : World) : Result × World :=
  let w := w.log .Starting
  -- Health check
  let w := w.call .CheckHealth
  let w := match env.CheckHealth with
    | some e => w.log (.HealthCheckFailed e)
    | none => w
  -- Get last sync time from database
  let w := w.call .GetLastSyncTime
  let (lastSync, w) :=
    match env.GetLastSyncTime with
    | (_, some e) => (Time.zero, w.log (.CouldNotGetLastSync e))
    | (t, none) => (t, w)
  let w := w.log (.LastSyncTime lastSync)
  -- Fetch alerts from mock API
  let ((externalAlerts, err), w) :=
    if lastSync.IsZero then
      (env.FetchAllAlerts, (w.log .FetchingAll).call .FetchAllAlerts)
    else
      (env.FetchAlertsSince lastSync,
        (w.log (.FetchingSince lastSync)).call (.FetchAlertsSince lastSync))
  match err with
  | some e => (.returned (some (Errorf "failed to fetch alerts from mock API: " e)), w)
  | none =>
    let w := w.log (.Fetched externalAlerts.length)
    if externalAlerts.length = 0 then
      (.returned none, w.log .NoNewAlerts)
    else
      -- Process and store each alert
      match processAlerts env externalAlerts 0 w with
      | (.ret e, w) => (.returned e, w)
      | (.panic, w) => (.panicked, w)
      | (.done successCount, w) =>
        -- Update last sync time
        let (now, w) := timeNow env w
        let w := w.call (.UpdateLastSyncTime now)
        let w := match env.UpdateLastSyncTime now with
          | some e => w.log (.UpdateFailed e)
          | none => w
        (.returned none, w.log (.Synced successCount externalAlerts.length))

/-! ## Reading a trace -/

/-- The `CreateAlert` calls of a trace, in order. -/
def createCallsOf : List Call → List CreateAlertArgs
  | [] => []
  | .CreateAlert a :: cs => a :: createCallsOf cs
  | _ :: cs => createCallsOf cs

/-- The `UpdateLastSyncTime` calls of a trace, in order. -/
def updateCallsOf : List Call → List Time
  | [] => []
  | .UpdateLastSyncTime t :: cs => t :: updateCallsOf cs
  | _ :: cs => updateCallsOf cs

/-- Whether a call is one of the two fetch calls. -/
def Call.isFetch : Call → Bool
  | .FetchAllAlerts => true
  | .FetchAlertsSince _ => true
  | _ => false

/-- The fetch calls (`FetchAllAlerts`, `FetchAlertsSince`) of a trace, in order. -/
def fetchCallsOf (tr : List Call) : List Call := tr.filter Call.isFetch

/-- The record fields that `CreateAlert` receives unchanged. -/
def ExternalAlert.key (a : ExternalAlert) : String × String × String × Time :=
  (a.Source, a.Severity, a.Description, a.CreatedAt)

/-- The same four fields of a `CreateAlert` call. -/
def CreateAlertArgs.key (a : CreateAlertArgs) : String × String × String × Time :=
  (a.source, a.severity, a.description, a.createdAt)

/-! ## Descriptions used in the statements and proofs -/

/-- The four octets drawn by `generateRandomIP` in world `w`, printed. -/
def ipOf (env : Env) (w : World) : String :=
  fmtD (env.rand w.randCalls % 256) ++ "." ++ fmtD (env.rand (w.randCalls + 1) % 256) ++ "." ++
    fmtD (env.rand (w.randCalls + 2) % 256) ++ "." ++ fmtD (env.rand (w.randCalls + 3) % 256)

/-- The blob handed to `CreateAlert` for a record when the clock has been read
`nowCalls` times before. -/
def wholeEventOf (env : Env) (a : ExternalAlert) (nowCalls : Nat) : String :=
  match env.Marshal
      [("source", .str a.Source), ("severity", .str a.Severity),
       ("description", .str a.Description), ("created_at", .time a.CreatedAt),
       ("synced_at", .time (env.Now nowCalls))] with
  | (_, some _) => "\x7b\x7d"
  | (json, none) => json

/-- The arguments of the `CreateAlert` call made for a record whose check has
passed, from the counters of the world before the iteration. -/
def argsOf (env : Env) (a : ExternalAlert) (nowCalls randCalls : Nat) : CreateAlertArgs :=
  ⟨a.Source, a.Severity, a.Description, wholeEventOf env a nowCalls,
    alertTypes.getD (env.rand randCalls % alertTypes.length) "",
    ipOf env { World.init with randCalls := randCalls + 1 }, a.CreatedAt⟩

/-- Two worlds with the same interface calls and the same counters (they may
differ in their log lines). -/
def World.sameCalls (w w' : World) : Prop :=
  w.trace = w'.trace ∧ w.ctxChecks = w'.ctxChecks ∧ w.createCalls = w'.createCalls ∧
    w.nowCalls = w'.nowCalls ∧ w.randCalls = w'.randCalls

/-- The cursor a pass works with: the watermark read from storage, or the zero
time when reading it failed. -/
def cursorOf (env : Env) : Time :=
  match env.GetLastSyncTime with
  | (_, some _) => Time.zero
  | (t, none) => t

/-- The fetch call a pass makes for its cursor. -/
def fetchCallOf (env : Env) : Call :=
  if (cursorOf env).IsZero then .FetchAllAlerts else .FetchAlertsSince (cursorOf env)

/-- What the environment answers to a fetch call. -/
def Env.answer (env : Env) : Call → List ExternalAlert × Option GoError
  | .FetchAllAlerts => env.FetchAllAlerts
  | .FetchAlertsSince t => env.FetchAlertsSince t
  | _ => ([], none)

/-- The calls every pass makes up to and including its fetch. -/
def openingCalls (env : Env) : List Call := [.CheckHealth, .GetLastSyncTime, fetchCallOf env]

/-- The world of a pass right after its fetch call. -/
def afterFetch (env : Env) : World :=
  let w := (World.init.log .Starting).call .CheckHealth
  let w := match env.CheckHealth with
    | some e => w.log (.HealthCheckFailed e)
    | none => w
  let w := w.call .GetLastSyncTime
  let w := match env.GetLastSyncTime with
    | (_, some e) => w.log (.CouldNotGetLastSync e)
    | (_, none) => w
  let w := w.log (.LastSyncTime (cursorOf env))
  if (cursorOf env).IsZero then (w.log .FetchingAll).call .FetchAllAlerts
  else (w.log (.FetchingSince (cursorOf env))).call (.FetchAlertsSince (cursorOf env))

/-- The part of `PerformSync` after the loop over `total` records, as a
function of how the loop was left. -/
def afterLoop (env : Env) (total : Nat) : LoopExit × World → Result × World
  | (.ret e, w) => (.returned e, w)
  | (.panic, w) => (.panicked, w)
  | (.done successCount, w) =>
    let w1 := ({ w with nowCalls := w.nowCalls + 1 } : World).call
      (.UpdateLastSyncTime (env.Now w.nowCalls))
    let w2 := match env.UpdateLastSyncTime (env.Now w.nowCalls) with
      | some e => w1.log (.UpdateFailed e)
      | none => w1
    (.returned none, w2.log (.Synced successCount total))

/-- The shape of the trace of every pass: the opening calls, then `CreateAlert`
calls only, then at most one `UpdateLastSyncTime`. -/
def passTrace (env : Env) (cs : List CreateAlertArgs) (upd : List Time) : List Call :=
  openingCalls env ++ cs.map Call.CreateAlert ++ upd.map Call.UpdateLastSyncTime

/-- Two fetched records used in the sample passes. -/
def sampleAlerts : List ExternalAlert :=
  [⟨"ext1", "high", "desc1", ⟨63900000000, 0, 0⟩⟩, ⟨"ext2", "low", "desc2", ⟨63900003600, 5, 0⟩⟩]

/-- A first sync: zero watermark, the full fetch returns two records, every
collaborator succeeds and the context is never cancelled. -/
def envFirst : Env where
  CheckHealth := none
  GetLastSyncTime := (Time.zero, none)
  FetchAllAlerts := (sampleAlerts, none)
  FetchAlertsSince := fun _ => ([], none)
  CreateAlert := fun _ _ => none
  UpdateLastSyncTime := fun _ => none
  ctxErr := fun _ => none
  Marshal := fun _ => ("json", none)
  Now := fun n => ⟨63900007200 + n, 0, 0⟩
  rand := fun n => 1000 * n + 7

/-- The first sync with a fetch that fails. -/
def envFetchErr : Env :=
  { envFirst with FetchAllAlerts := ([], some (.errorString "API error")) }

/-- The first sync with a fetch that returns no record. -/
def envEmpty : Env := { envFirst with FetchAllAlerts := ([], none) }

/-- The first sync with a context cancelled after the first record: the check
before record 1 sees `context.Canceled`. -/
def envCancel : Env :=
  { envFirst with ctxErr := fun k => if k = 0 then none else some .Canceled }

/-- The first sync with a failing health probe and a failing `CreateAlert` for
the first record. -/
def envDegraded : Env :=
  { envFirst with
    CheckHealth := some (.errorString "health check failed")
    CreateAlert := fun n _ => if n = 0 then some (.errorString "db") else none
    UpdateLastSyncTime := fun _ => some (.errorString "db") }

/-- An incremental sync: the watermark is the creation time of the first sample
record and the upstream returns the second. -/
def envIncremental : Env :=
  { envFirst with
    GetLastSyncTime := (⟨63900000000, 0, 0⟩, none)
    FetchAlertsSince := fun _ => (sampleAlerts.drop 1, none) }

/-- A pass whose watermark read fails (a timestamp comes with the error). -/
def envNoWatermark : Env :=
  { envFirst with GetLastSyncTime := (⟨63900000000, 0, 0⟩, some (.errorString "db down")) }

/-- The number a string of decimal digits denotes. -/
def decimalValue (s : String) : Nat :=
  s.toList.foldl (fun acc ch => 10 * acc + (ch.toNat - 48)) 0

/-- The struct `models.Alert`; a nil `*string` is `none`, the byte slice is
kept as text. -/
structure Alert where
  ID : String
  Source : String
  Severity : String
  Description : String
  WholeEvent : String
  EnrichmentType : Option String
  IPAddress : Option String
  CreatedAt : Time
deriving DecidableEq, Repr

/-- One call made while a read request is served: a method of `AlertService`
called by a handler, or a method of `AlertStorageInterface` called by the
service. -/
inductive ReadCall where
  | serviceGetAlerts
  | serviceGetAlertByID (id : String)
  | serviceGetAlertsByDays (days : Int)
  | storageGetAlerts
  | storageGetAlertByID (id : String)
  | storageGetAlertsByDays (days : Int)
deriving DecidableEq, Repr

/-- What the read methods of `AlertStorageInterface` answer.  A slice or
pointer result is `none` when it is nil; `days` is a Go `int`. -/
structure Storage where
  GetAlerts : Option (List Alert) × Option GoError
  GetAlertByID : String → Option Alert × Option GoError
  GetAlertsByDays : Int → Option (List Alert) × Option GoError

/-- Source: `AlertService.GetAlerts`, with the storage calls it makes. -/
def AlertService.GetAlerts (st : Storage) :
    (Option (List Alert) × Option GoError) × List ReadCall :=
  let (alerts, err) := st.GetAlerts
  match err with
  | some e => ((none, some (Errorf "service: error getting alerts: " e)), [.storageGetAlerts])
  | none => ((alerts, none), [.storageGetAlerts])

/-- Source: `AlertService.GetAlertByID`, with the storage calls it makes. -/
def AlertService.GetAlertByID (st : Storage) (id : String) :
    (Option Alert × Option GoError) × List ReadCall :=
  let (alert, err) := st.GetAlertByID id
  match err with
  | some e =>
    ((none, some (Errorf "service: error getting alert: " e)), [.storageGetAlertByID id])
  | none => ((alert, none), [.storageGetAlertByID id])

/-- Source: `AlertService.GetAlertsByDays`, with the storage calls it makes. -/
def AlertService.GetAlertsByDays (st : Storage) (days : Int) :
    (Option (List Alert) × Option GoError) × List ReadCall :=
  if days ≤ 0 then
    ((none, some (.errorString "service: days must be greater than 0")), [])
  else
    let (alerts, err) := st.GetAlertsByDays days
    match err with
    | some e =>
      ((none, some (Errorf "service: error getting alerts by days: " e)),
        [.storageGetAlertsByDays days])
    | none => ((alerts, none), [.storageGetAlertsByDays days])

/-- The value a handler encodes as the JSON body: `ErrorResponse`,
`AlertsResponse`, `SingleAlertResponse` or `SyncResponse`. -/
inductive Body where
  | ErrorResponse (Error : String)
  | AlertsResponse (Alerts : Option (List Alert))
  | SingleAlertResponse (Alert : Option Alert)
  | SyncResponse (Message : String) (Status : String)
deriving DecidableEq, Repr

/-- What a handler writes: the status code and the encoded value. -/
structure Response where
  status : Nat
  body : Body
deriving DecidableEq, Repr

/-- Source: `AlertHandler.writeJSON` (the content-type header and the log line
of a failed encoding are left out). -/
def writeJSON (status : Nat) (data : Body) : Response := ⟨status, data⟩

/-- Source: `AlertHandler.writeError`. -/
def writeError (status : Nat) (message : String) : Response :=
  writeJSON status (.ErrorResponse message)

/-- An incoming request: its method and its query parameters in the order of
the URL. -/
structure Request where
  Method : String
  Query : List (String × String)
deriving DecidableEq, Repr

/-- Go `url.Values.Get`: the first value of the key, or the empty string. -/
def Request.Get (r : Request) (key : String) : String :=
  match r.Query.find? (fun kv => kv.1 == key) with
  | some kv => kv.2
  | none => ""

/-- The `*strconv.NumError` of `Atoi`; it unwraps to `ErrSyntax` or `ErrRange`. -/
def numError (s : String) (reason : String) : GoError :=
  .wrapError ("strconv.Atoi: parsing " ++ s.quote ++ ": " ++ reason) (.errorString reason)

/-- Go `strconv.Atoi` for a 64-bit `int`: an optional sign and then one or
more decimal digits; a syntax error gives 0, a value out of range gives the
nearest bound, both with an error. -/
def Atoi (s : String) : Int × Option GoError :=
  let (neg, ds) : Bool × List Char :=
    match s.toList with
    | '-' :: r => (true, r)
    | '+' :: r => (false, r)
    | cs => (false, cs)
  if ds.isEmpty || !ds.all Char.isDigit then (0, some (numError s "invalid syntax"))
  else
    let un : Nat := ds.foldl (fun n ch => 10 * n + (ch.toNat - 48)) 0
    if !neg && un ≥ 2 ^ 63 then (2 ^ 63 - 1, some (numError s "value out of range"))
    else if neg && un > 2 ^ 63 then (-(2 ^ 63), some (numError s "value out of range"))
    else (if neg then -(un : Int) else (un : Int), none)

/-- Source: `AlertHandler.getAlertByID`, with the calls made (log lines are
left out of the handlers). -/
def AlertHandler.getAlertByID (st : Storage) (id : String) : Response × List ReadCall :=
  let ((alert, err), calls) := AlertService.GetAlertByID st id
  match err with
  | some _ => (writeError 404 "Alert not found", .serviceGetAlertByID id :: calls)
  | none => (writeJSON 200 (.SingleAlertResponse alert), .serviceGetAlertByID id :: calls)

/-- Source: `AlertHandler.getAlertsByDays`. -/
def AlertHandler.getAlertsByDays (st : Storage) (daysParam : String) :
    Response × List ReadCall :=
  let (days, err) := Atoi daysParam
  if err.isSome || days ≤ 0 then
    (writeError 400 "Invalid 'days' parameter. Must be a positive integer", [])
  else
    let ((alerts, err), calls) := AlertService.GetAlertsByDays st days
    match err with
    | some _ =>
      (writeError 500 "Failed to retrieve alerts", .serviceGetAlertsByDays days :: calls)
    | none => (writeJSON 200 (.AlertsResponse alerts), .serviceGetAlertsByDays days :: calls)

/-- Source: `AlertHandler.getAllAlerts`. -/
def AlertHandler.getAllAlerts (st : Storage) : Response × List ReadCall :=
  let ((alerts, err), calls) := AlertService.GetAlerts st
  match err with
  | some _ => (writeError 500 "Failed to retrieve alerts", .serviceGetAlerts :: calls)
  | none => (writeJSON 200 (.AlertsResponse alerts), .serviceGetAlerts :: calls)

/-- Source: `AlertHandler.GetAlerts`. -/
def AlertHandler.GetAlerts (st : Storage) (r : Request) : Response × List ReadCall :=
  if r.Method ≠ "GET" then (writeError 405 "Method not allowed. Use GET.", [])
  else
    let idParam := r.Get "id"
    let daysParam := r.Get "days"
    if idParam ≠ "" ∧ daysParam ≠ "" then
      (writeError 400 "Cannot specify both 'id' and 'days' parameters at the same time", [])
    else if idParam ≠ "" then AlertHandler.getAlertByID st idParam
    else if daysParam ≠ "" then AlertHandler.getAlertsByDays st daysParam
    else AlertHandler.getAllAlerts st

/-- Two stored alerts used in the sample requests. -/
def sampleStored : List Alert :=
  [⟨"2", "ext2", "low", "desc2", "\x7b\x7d", some "threat_intel", some "10.0.0.2",
      ⟨63900003600, 5, 0⟩⟩,
   ⟨"1", "ext1", "high", "desc1", "\x7b\x7d", some "geo_location", some "10.0.0.1",
      ⟨63900000000, 0, 0⟩⟩]

/-- A storage whose reads succeed: it knows the two sample alerts. -/
def stSample : Storage where
  GetAlerts := (some sampleStored, none)
  GetAlertByID := fun id =>
    match sampleStored.find? (fun a => a.ID == id) with
    | some a => (some a, none)
    | none => (none, some (.errorString "alert not found"))
  GetAlertsByDays := fun _ => (some (sampleStored.take 1), none)

/-- A storage whose reads all fail with "database error". -/
def stFailing : Storage where
  GetAlerts := (none, some (.errorString "database error"))
  GetAlertByID := fun _ => (none, some (.errorString "database error"))
  GetAlertsByDays := fun _ => (none, some (.errorString "database error"))

/-- The order of instants: `a` is not after `b` (the zone offset is not looked
at). -/
def Time.le (a b : Time) : Prop := a.sec < b.sec ∨ (a.sec = b.sec ∧ a.nsec ≤ b.nsec)

instance (a b : Time) : Decidable (a.le b) := by
  unfold Time.le
  infer_instance

/-- Go `sql.NullTime`. -/
structure NullTime where
  Time : Time
  Valid : Bool
deriving DecidableEq, Repr

/-- The table `alerts` behind `AlertStorage`: its rows in insertion order, and
the id the database gives to the `n`-th row inserted. -/
structure DB where
  alerts : List Alert
  newID : Nat → String

/-- The aggregate `MAX(created_at)` over rows: NULL (`none`) without rows,
otherwise a greatest creation time. -/
def maxCreatedAt : List Alert → Option Time
  | [] => none
  | a :: rest =>
    match maxCreatedAt rest with
    | none => some a.CreatedAt
    | some t => if t.le a.CreatedAt then some a.CreatedAt else some t

/-- The call `QueryRowContext(ctx, "SELECT MAX(created_at) FROM alerts").Scan(&lastSync)`.
`fail` is the error the driver reports for this statement, if any (connection
lost, context cancelled); otherwise the one row of the aggregate is scanned. -/
def DB.scanMaxCreatedAt (db : DB) (fail : Option GoError) : NullTime × Option GoError :=
  match fail with
  | some e => (⟨Time.zero, false⟩, some e)
  | none =>
    match maxCreatedAt db.alerts with
    | none => (⟨Time.zero, false⟩, none)
    | some t => (⟨t, true⟩, none)

/-- Source: `AlertStorage.GetLastSyncTime`. -/
def AlertStorage.GetLastSyncTime (db : DB) (fail : Option GoError) : Time × Option GoError :=
  let (lastSync, err) := db.scanMaxCreatedAt fail
  match err with
  | some e => (Time.zero, some (Errorf "error querying last sync time: " e))
  | none => if !lastSync.Valid then (Time.zero, none) else (lastSync.Time, none)

/-- Go `sql.ErrNoRows`. -/
def ErrNoRows : GoError := .sqlErrNoRows

/-- The zero value of `models.Alert`. -/
def Alert.zero : Alert := ⟨"", "", "", "", "", none, none, Time.zero⟩

/-- The call `QueryRowContext(ctx, "SELECT ... FROM alerts WHERE id = $1", id).Scan(...)`:
the driver error `fail` if there is one, `sql.ErrNoRows` when no row has the
id, otherwise the row is scanned into the alert. -/
def DB.scanRowByID (db : DB) (fail : Option GoError) (id : String) : Alert × Option GoError :=
  match fail with
  | some e => (Alert.zero, some e)
  | none =>
    match db.alerts.find? (fun a => a.ID == id) with
    | none => (Alert.zero, some ErrNoRows)
    | some a => (a, none)

/-- Source: `AlertStorage.GetAlertByID`.  The comparison `err == sql.ErrNoRows`
is with the sentinel itself: any other error, also one with the same text,
takes the "error querying alert" branch. -/
def AlertStorage.GetAlertByID (db : DB) (fail : Option GoError) (id : String) :
    Option Alert × Option GoError :=
  let (alert, err) := db.scanRowByID fail id
  if err = some ErrNoRows then (none, some (.errorString "alert not found"))
  else
    match err with
    | some e => (none, some (Errorf "error querying alert: " e))
    | none => (some alert, none)

/-- The call `ExecContext(ctx, "INSERT INTO alerts ...", ...)`: with a driver
error nothing is inserted, otherwise one row with the given columns and a new
id is added. -/
def DB.execInsert (db : DB) (fail : Option GoError) (args : CreateAlertArgs) :
    DB × Option GoError :=
  match fail with
  | some e => (db, some e)
  | none =>
    ({ db with
        alerts := db.alerts ++
          [⟨db.newID db.alerts.length, args.source, args.severity, args.description,
            args.wholeEvent, some args.enrichmentType, some args.ipAddress, args.createdAt⟩] },
      none)

/-- Source: `AlertStorage.CreateAlert`. -/
def AlertStorage.CreateAlert (db : DB) (fail : Option GoError) (args : CreateAlertArgs) :
    DB × Option GoError :=
  let (db1, err) := db.execInsert fail args
  match err with
  | some e => (db1, some (Errorf "error creating alert: " e))
  | none => (db1, none)

/-- Source: `AlertStorage.UpdateLastSyncTime`: a no-op that returns nil. -/
def AlertStorage.UpdateLastSyncTime (_db : DB) (_t : Time) : Option GoError := none

/-- A table with no row. -/
def dbEmpty : DB := ⟨[], fun n => toString (n + 1)⟩

/-- A table holding the two sample alerts. -/
def dbSample : DB := ⟨sampleStored, fun n => toString (n + 1)⟩

/-- The environment of a pass that runs against `AlertStorage` over the table
`db`: the watermark is read with `GetLastSyncTime` (driver error `qfail`), the
`n`-th `CreateAlert` call reports what `AlertStorage.CreateAlert` reports when
its INSERT meets the driver error `fails n`, and `UpdateLastSyncTime` is the
no-op; the other collaborators are those of `env`. -/
def Env.onStorage (env : Env) (db : DB) (qfail : Option GoError)
    (fails : Nat → Option GoError) : Env :=
  { env with
    GetLastSyncTime := AlertStorage.GetLastSyncTime db qfail
    CreateAlert := fun n args => (AlertStorage.CreateAlert db (fails n) args).2
    UpdateLastSyncTime := fun t => AlertStorage.UpdateLastSyncTime db t }

/-- The table after the `CreateAlert` calls `calls` (the first has ordinal
`n`), each run by `AlertStorage.CreateAlert` with its driver error. -/
def storeCalls (fails : Nat → Option GoError) : List CreateAlertArgs → Nat → DB → DB
  | [], _, db => db
  | args :: rest, n, db =>
    storeCalls fails rest (n + 1) (AlertStorage.CreateAlert db (fails n) args).1

/-- The table after a pass of `PerformSync` against `AlertStorage` over `db`. -/
def tableAfterPass (env : Env) (db : DB) (qfail : Option GoError)
    (fails : Nat → Option GoError) : DB :=
  storeCalls fails
    (createCallsOf (PerformSync (env.onStorage db qfail fails) World.init).2.trace) 0 db

/-- The rows a pass has persisted: those of the table after it that were not
there before. -/
def persistedByPass (env : Env) (db : DB) (qfail : Option GoError)
    (fails : Nat → Option GoError) : List Alert :=
  (tableAfterPass env db qfail fails).alerts.drop db.alerts.length

/-- A table holding one alert created at 63900003600 s. -/
def dbOneNewer : DB :=
  ⟨[⟨"1", "ext2", "low", "desc2", "\x7b\x7d", some "threat_intel", some "10.0.0.2",
      ⟨63900003600, 5, 0⟩⟩], fun n => toString (n + 1)⟩

/-- A full fetch that returns the history newest first: the record already
stored in `dbOneNewer`, then an older one. -/
def envRefetch : Env :=
  { envFirst with FetchAllAlerts := (sampleAlerts.reverse, none) }

/-- Driver errors of a pass in which the first INSERT fails. -/
def failFirst : Nat → Option GoError :=
  fun n => if n = 0 then some (.errorString "connection reset") else none

/-- Go `*http.Response`, reduced to its status code and to what the library
`go-retryablehttp` reads from its `Retry-After` header: the delay asked for,
in nanoseconds, or `none` when the header is absent or is not read as a
delay. -/
structure HttpResponse where
  StatusCode : Int
  RetryAfter : Option Int
deriving DecidableEq, Repr

/-- Source: the `CheckRetry` closure set in `NewMockAPIClient`.  `ctxErr` is
what `ctx.Err()` returns; a nil response is `none`, a nil error is `none`; the
result `none` is the nil-pointer panic of `resp.StatusCode` when both are nil.
The `fmt.Printf` lines are left out. -/
def CheckRetry (ctxErr : Option GoError) (resp : Option HttpResponse) (err : Option GoError) :
    Option (Bool × Option GoError) :=
  match ctxErr with
  | some ce => some (false, some ce)
  | none =>
    match err with
    | some _ => some (true, none)
    | none =>
      match resp with
      | none => none
      | some r =>
        if r.StatusCode ≥ 500 then some (true, none)
        else if r.StatusCode = 429 then some (true, none)
        else some (false, none)

/-- Go `time.Second`, in nanoseconds (the unit of `time.Duration`). -/
def Second : Int := 1000000000

/-- The retry settings of a `retryablehttp.Client`. -/
structure RetryClient where
  RetryMax : Int
  RetryWaitMin : Int
  RetryWaitMax : Int
deriving DecidableEq, Repr

/-- Source: the settings `NewMockAPIClient` gives its client. -/
def NewMockAPIClient : RetryClient :=
  { RetryMax := 3, RetryWaitMin := 1 * Second, RetryWaitMax := 30 * Second }

/-- The exponential part of `DefaultBackoff`: the minimum wait doubled for
each attempt made, capped at the maximum wait. -/
def exponentialWait (min max : Int) (attemptNum : Nat) : Int :=
  if 2 ^ attemptNum * min > max then max else 2 ^ attemptNum * min

/-- The library `go-retryablehttp`, `DefaultBackoff` (the backoff of
`NewClient`): after a response with status 429 or 503 whose `Retry-After`
header is read as a delay, that delay, whatever the bounds; otherwise the
exponential wait. -/
def DefaultBackoff (min max : Int) (attemptNum : Nat) (resp : Option HttpResponse) : Int :=
  match resp with
  | none => exponentialWait min max attemptNum
  | some r =>
    if r.StatusCode = 429 ∨ r.StatusCode = 503 then
      match r.RetryAfter with
      | some sleep => sleep
      | none => exponentialWait min max attemptNum
    else exponentialWait min max attemptNum

/-- What happens at one attempt of a request: what `ctx.Err()` returns when
`CheckRetry` runs, what `HTTPClient.Do` returned, and whether the context is
done before the wait that follows is over. -/
structure Attempt where
  ctxErr : Option GoError
  resp : Option HttpResponse
  err : Option GoError
  doneInWait : Bool

/-- The attempts a request made and the waits slept between consecutive
attempts, in order. -/
structure DoTrace where
  attempts : Nat
  waits : List Int
deriving DecidableEq, Repr

/-- How the attempt loop ends. -/
inductive DoResult where
  | finished (t : DoTrace)
  | panicked
  | outOfFuel
deriving DecidableEq, Repr

/-- The library `go-retryablehttp`, `Client.Do`, reduced to its attempt loop
`for i := 0; ; i++`: make the attempt, ask `CheckRetry`; stop when it says not
to retry or when `RetryMax - i <= 0`; otherwise wait
`Backoff(min, max, i, resp)` (returning at once when the context is done
first) and go round again.
`fuel` bounds the number of rounds. -/
def retryLoop (c : RetryClient) (att : Nat → Attempt) : Nat → Nat → DoResult
  | 0, _ => .outOfFuel
  | fuel + 1, i =>
    match CheckRetry (att i).ctxErr (att i).resp (att i).err with
    | none => .panicked
    | some (shouldRetry, _) =>
      if !shouldRetry then .finished ⟨1, []⟩
      else if c.RetryMax - (i : Int) ≤ 0 then .finished ⟨1, []⟩
      else if (att i).doneInWait then .finished ⟨1, []⟩
      else
        match retryLoop c att fuel (i + 1) with
        | .finished t =>
          .finished ⟨t.attempts + 1,
            DefaultBackoff c.RetryWaitMin c.RetryWaitMax i (att i).resp :: t.waits⟩
        | .panicked => .panicked
        | .outOfFuel => .outOfFuel

/-- An upstream that answers every attempt with status 500. -/
def alwaysServerError : Nat → Attempt :=
  fun _ => ⟨none, some ⟨500, none⟩, none, false⟩

/-- An upstream that answers every attempt with status 429 and
`Retry-After: 120`. -/
def alwaysRateLimited : Nat → Attempt :=
  fun _ => ⟨none, some ⟨429, some (120 * Second)⟩, none, false⟩

/-- The struct `config.Config`; the duration is in nanoseconds. -/
structure Config where
  DBHost : String
  DBPort : String
  DBUser : String
  DBPassword : String
  DBName : String
  MockAPIURL : String
  SyncInterval : Int
deriving DecidableEq, Repr

/-- Source: `getEnv`; `Getenv` is `os.Getenv` (the empty string for an unset
variable). -/
def getEnv (Getenv : String → String) (key defaultValue : String) : String :=
  if Getenv key ≠ "" then Getenv key else defaultValue

/-- Source: `parseDuration`; `ParseDuration` is `time.ParseDuration`. -/
def parseDuration (ParseDuration : String → Int × Option GoError) (value : String)
    (defaultValue : Int) : Int :=
  match ParseDuration value with
  | (_, some _) => defaultValue
  | (d, none) => d

/-- Source: `LoadConfig`. -/
def LoadConfig (Getenv : String → String) (ParseDuration : String → Int × Option GoError) :
    Config :=
  { DBHost := getEnv Getenv "DB_HOST" "localhost"
    DBPort := getEnv Getenv "DB_PORT" "5432"
    DBUser := getEnv Getenv "DB_USER" "postgres"
    DBPassword := getEnv Getenv "DB_PASSWORD" "postgres"
    DBName := getEnv Getenv "DB_NAME" "alerts_db"
    MockAPIURL := getEnv Getenv "MOCK_API_URL" "http://localhost:8081"
    SyncInterval := parseDuration ParseDuration (getEnv Getenv "SYNC_INTERVAL" "60s")
      (60 * Second) }

/-- What `time.ParseDuration` answers on a few strings; any other string is
taken as invalid here. -/
def sampleParseDuration (s : String) : Int × Option GoError :=
  if s = "60s" then (60 * Second, none)
  else if s = "5m" then (300 * Second, none)
  else if s = "1h30m" then (5400 * Second, none)
  else (0, some (.errorString "time: invalid duration"))

/-- An environment in which only `SYNC_INTERVAL` is set, to the given value. -/
def envWithInterval (v : String) : String → String :=
  fun key => if key = "SYNC_INTERVAL" then v else ""

/-- The object `PerformSync` hands to `json.Marshal` for a record, with the
reading of `time.Now()` as `synced_at`. -/
def eventObject (a : ExternalAlert) (syncedAt : Time) : List (String × JVal) :=
  [("source", .str a.Source), ("severity", .str a.Severity),
   ("description", .str a.Description), ("created_at", .time a.CreatedAt),
   ("synced_at", .time syncedAt)]

/-- The `CreateAlert` calls of a loop that handles all the records given, when
the clock has been read `nowCalls` times and the generator `randCalls` times
before. -/
def callsFor (env : Env) : List ExternalAlert → Nat → Nat → List CreateAlertArgs
  | [], _, _ => []
  | a :: rest, nowCalls, randCalls =>
    argsOf env a nowCalls randCalls :: callsFor env rest (nowCalls + 1) (randCalls + 5)

/-- The first sync with a `json.Marshal` that fails on the record of source
"ext1". -/
def envMarshalFails : Env :=
  { envFirst with
    Marshal := fun obj =>
      if ("source", JVal.str "ext1") ∈ obj then
        ("", some (.errorString "json: error calling MarshalJSON for type time.Time"))
      else ("json", none) }

/-- Go `time.NewTicker`, reduced to its precondition: it panics (`none`) for a
non-positive interval, otherwise there is a ticker of that period. -/
def NewTicker (d : Int) : Option Int := if d ≤ 0 then none else some d

/-- Source: `startPeriodicSync`, up to the creation of its ticker (`none` is
the panic of `time.NewTicker`). -/
def startPeriodicSync (interval : Int) : Option Int := NewTicker interval

/-- What `time.ParseDuration` answers on two more strings, a zero and a
negative duration; the other strings as in `sampleParseDuration`. -/
def sampleParseDurationSigned (s : String) : Int × Option GoError :=
  if s = "0s" then (0, none)
  else if s = "-5s" then (-5 * Second, none)
  else sampleParseDuration s

/-- Two decimal digits, zero padded. -/
def pad2 (n : Nat) : List Char := [Nat.digitChar (n / 10 % 10), Nat.digitChar (n % 10)]

/-- Four decimal digits, zero padded. -/
def pad4 (n : Nat) : List Char := pad2 (n / 100) ++ pad2 (n % 100)

/-- The proleptic Gregorian date (year, month, day) of the day that is `days`
days after January 1 of year 1. -/
def civilFromDays (days : Nat) : Nat × Nat × Nat :=
  let z := days + 306
  let era := z / 146097
  let doe := z % 146097
  let yoe := (doe - doe / 1460 + doe / 36524 - doe / 146096) / 365
  let doy := doe - (365 * yoe + yoe / 4 - yoe / 100)
  let mp := (5 * doy + 2) / 153
  let d := doy - (153 * mp + 2) / 5 + 1
  let m := if mp < 10 then mp + 3 else mp - 9
  let y := yoe + era * 400 + (if m ≤ 2 then 1 else 0)
  (y, m, d)

/-- The number of days from January 1 of year 1 to the given date (negative in
year 0). -/
def daysFromCivil (y m d : Nat) : Int :=
  let y1 := y + 400 - (if m ≤ 2 then 1 else 0)
  let era := y1 / 400
  let yoe := y1 % 400
  let doy := (153 * (if m > 2 then m - 3 else m + 9) + 2) / 5 + d - 1
  let doe := yoe * 365 + yoe / 4 - yoe / 100 + doy
  ((era * 146097 + doe : Nat) : Int) - 306 - 146097

/-- Go `t.Format(time.RFC3339)`, layout "2006-01-02T15:04:05Z07:00": the wall
clock in the zone of `t` to the second (the nanoseconds are not printed), then
"Z" for a zero offset and otherwise the signed offset in hours and minutes.
Modelled for the years 1 to 9999 (`none` outside). -/
def Time.FormatRFC3339 (t : Time) : Option String :=
  let wall := t.sec + t.offset
  if wall < 0 then none
  else
    let secs := wall.toNat
    let (y, m, d) := civilFromDays (secs / 86400)
    if y > 9999 then none
    else
      let rem := secs % 86400
      let zone := t.offset.natAbs / 60
      let zoneText : List Char :=
        if t.offset = 0 then ['Z']
        else (if t.offset ≤ -60 then '-' else '+') :: (pad2 (zone / 60) ++ [':'] ++ pad2 (zone % 60))
      some (String.mk (pad4 y ++ ['-'] ++ pad2 m ++ ['-'] ++ pad2 d ++ ['T'] ++
        pad2 (rem / 3600) ++ [':'] ++ pad2 (rem / 60 % 60) ++ [':'] ++ pad2 (rem % 60) ++
        zoneText))

/-- The number written by a list of decimal digits, `none` when a character
is not a digit. -/
def digitsValue (cs : List Char) : Option Nat :=
  if cs.all Char.isDigit then some (cs.foldl (fun n ch => 10 * n + (ch.toNat - 48)) 0)
  else none

/-- The days of a month. -/
def daysIn (y m : Nat) : Nat :=
  if m = 2 then (if y % 4 = 0 ∧ (y % 100 ≠ 0 ∨ y % 400 = 0) then 29 else 28)
  else if m = 4 ∨ m = 6 ∨ m = 9 ∨ m = 11 then 30
  else 31

/-- The zone at the end of an RFC 3339 text: "Z", or a sign, two digits of
hours, a colon and two digits of minutes; the result is the offset in seconds
east of UTC.  As in Go, the range test lets 24 hours and 60 minutes through. -/
def parseZone : List Char → Option Int
  | ['Z'] => some 0
  | [sg, h1, h2, ':', m1, m2] =>
    match digitsValue [h1, h2], digitsValue [m1, m2] with
    | some h, some m =>
      if h > 24 ∨ m > 60 then none
      else if sg = '+' then some ((h * 3600 + m * 60 : Nat) : Int)
      else if sg = '-' then some (-((h * 3600 + m * 60 : Nat) : Int))
      else none
    | _, _ => none
  | _ => none

/-- The optional fractional second and the zone that follow the seconds field:
a period or comma with digits gives the nanoseconds (digits after the ninth are
dropped). -/
def parseFractionZone (cs : List Char) : Option (Nat × Int) :=
  match cs with
  | p :: rest =>
    if (p = '.' ∨ p = ',') ∧ (rest.head?.map Char.isDigit = some true) then
      let ds := rest.takeWhile Char.isDigit
      let tail := rest.dropWhile Char.isDigit
      match digitsValue ((ds ++ List.replicate 9 '0').take 9), parseZone tail with
      | some ns, some off => some (ns, off)
      | _, _ => none
    else (parseZone cs).map (fun off => (0, off))
  | [] => none

/-- Go `time.Parse(time.RFC3339, s)` on texts with two-digit fields, as
`Format` writes them: date, "T", time of day, an optional fractional second,
the zone; `none` is a parse error. -/
def parseRFC3339 (s : String) : Option Time :=
  match s.toList with
  | y1 :: y2 :: y3 :: y4 :: '-' :: mo1 :: mo2 :: '-' :: d1 :: d2 :: 'T' ::
      h1 :: h2 :: ':' :: mi1 :: mi2 :: ':' :: s1 :: s2 :: rest =>
    match digitsValue [y1, y2, y3, y4], digitsValue [mo1, mo2], digitsValue [d1, d2],
        digitsValue [h1, h2], digitsValue [mi1, mi2], digitsValue [s1, s2],
        parseFractionZone rest with
    | some y, some mo, some d, some h, some mi, some sc, some (ns, off) =>
      if mo < 1 ∨ mo > 12 ∨ d < 1 ∨ d > daysIn y mo ∨ h > 23 ∨ mi > 59 ∨ sc > 59 then none
      else
        some ⟨daysFromCivil y mo d * 86400 + ((h * 3600 + mi * 60 + sc : Nat) : Int) - off,
          ns, off⟩
    | _, _, _, _, _, _, _ => none
  | _ => none

/-- The value of a hexadecimal digit. -/
def hexValue (c : Char) : Option Nat :=
  if c.isDigit then some (c.toNat - 48)
  else if 'a' ≤ c ∧ c ≤ 'f' then some (c.toNat - 87)
  else if 'A' ≤ c ∧ c ≤ 'F' then some (c.toNat - 55)
  else none

/-- Go `url.QueryUnescape`, by which `r.URL.Query()` decodes a value: "+" is a
space, "%XX" the byte XX (taken as a character here), a malformed escape is an
error (`none`). -/
def queryUnescape : List Char → Option (List Char)
  | [] => some []
  | '+' :: rest => (queryUnescape rest).map (fun r => ' ' :: r)
  | '%' :: a :: b :: rest =>
    match hexValue a, hexValue b, queryUnescape rest with
    | some x, some y, some r => some (Char.ofNat (16 * x + y) :: r)
    | _, _, _ => none
  | '%' :: _ => none
  | c :: rest => (queryUnescape rest).map (fun r => c :: r)

/-- Source: `MockAPIClient.FetchAlertsSince`, the query string of the URL it
requests, `fmt.Sprintf("%s/alerts?since=%s", c.baseURL, since.Format(time.RFC3339))`:
the formatted time is put in as it is, without escaping. -/
def MockAPIClient.sinceQuery (since : Time) : Option String :=
  since.FormatRFC3339.map (fun s => "since=" ++ s)

/-- The pieces of a text between occurrences of a separator. -/
def splitChar (sep : Char) : List Char → List (List Char)
  | [] => [[]]
  | c :: rest =>
    if c = sep then [] :: splitChar sep rest
    else
      match splitChar sep rest with
      | [] => [[c]]
      | p :: ps => (c :: p) :: ps

/-- Go `url.ParseQuery`, by which `r.URL.Query()` reads the raw query: the
pairs between "&", each split at its first "=", key and value decoded with
`QueryUnescape`; a pair that does not decode is dropped. -/
def parseQuery (raw : String) : List (String × String) :=
  (splitChar '&' raw.toList).filterMap (fun seg =>
    if seg = [] then none
    else
      let key := seg.takeWhile (fun c => c != '=')
      let value := (seg.dropWhile (fun c => c != '=')).drop 1
      match queryUnescape key, queryUnescape value with
      | some k, some v => some (String.mk k, String.mk v)
      | _, _ => none)

/-- Source (mock-alerts-api): `IsValidSource`. -/
def IsValidSource (source : String) : Bool :=
  source ∈ ["siem-1", "siem-2", "firewall", "ids", "antivirus", "endpoint", "cloud-security",
    "email-gateway", "network-monitor", "vulnerability-scanner"]

/-- Source (mock-alerts-api): `IsValidSeverity`. -/
def IsValidSeverity (severity : String) : Bool :=
  severity ∈ ["low", "medium", "high", "critical"]

/-- Source (mock-alerts-api): `AlertGenerator.GetAlertsSince` over the rows of
`external_alerts`: the rows with `created_at > since`, oldest first, of which
those with a valid source and severity are kept; `fail` is the driver error of
the query, if any.  A nil slice is the empty list. -/
def AlertGenerator.GetAlertsSince (rows : List ExternalAlert) (fail : Option GoError)
    (since : Time) : List ExternalAlert × Option GoError :=
  match fail with
  | some e => ([], some (Errorf "error querying external alerts: " e))
  | none =>
    (((rows.filter (fun a => ¬ a.CreatedAt.le since)).insertionSort
        (fun a b => a.CreatedAt.le b.CreatedAt)).filter
        (fun a => IsValidSource a.Source && IsValidSeverity a.Severity), none)

/-- Source (mock-alerts-api): `AlertGenerator.GetAllAlerts`: the 100 newest
rows, newest first, of which the valid ones are kept. -/
def AlertGenerator.GetAllAlerts (rows : List ExternalAlert) (fail : Option GoError) :
    List ExternalAlert × Option GoError :=
  match fail with
  | some e => ([], some (Errorf "error querying all external alerts: " e))
  | none =>
    (((rows.insertionSort (fun a b => b.CreatedAt.le a.CreatedAt)).take 100).filter
        (fun a => IsValidSource a.Source && IsValidSeverity a.Severity), none)

/-- Source (mock-alerts-api): `AlertsHandler.getAlertsSince`. -/
def AlertsHandler.getAlertsSince (rows : List ExternalAlert) (fail : Option GoError)
    (sinceParam : String) : List ExternalAlert × Option GoError :=
  match parseRFC3339 sinceParam with
  | none => ([], some (.errorString ("parsing time " ++ sinceParam)))
  | some since => AlertGenerator.GetAlertsSince rows fail since

/-- What the upstream handler encodes as the JSON body. -/
inductive UpstreamBody where
  | AlertsResponse (Alerts : List ExternalAlert)
  | ErrorResponse (Error : String)
deriving DecidableEq, Repr

/-- Source (mock-alerts-api): `AlertsHandler.GetAlerts`; `shouldFail` is the
outcome of the simulated-failure draw. -/
def AlertsHandler.GetAlerts (rows : List ExternalAlert) (fail : Option GoError)
    (shouldFail : Bool) (r : Request) : Nat × UpstreamBody :=
  if r.Method ≠ "GET" then (405, .ErrorResponse "Method not allowed. Use GET.")
  else if shouldFail then (500, .ErrorResponse "Service temporarily unavailable")
  else
    let sinceParam := r.Get "since"
    let (alerts, err) :=
      if sinceParam ≠ "" then AlertsHandler.getAlertsSince rows fail sinceParam
      else AlertGenerator.GetAllAlerts rows fail
    match err with
    | some _ => (500, .ErrorResponse "Failed to fetch alerts")
    | none => (200, .AlertsResponse alerts)

/-- The request the upstream receives when `FetchAlertsSince` is called with
the cursor `since`. -/
def sinceRequest (since : Time) : Option Request :=
  (MockAPIClient.sinceQuery since).map (fun q => ⟨"GET", parseQuery q⟩)

/-- A watermark with half a second: 2025-11-29T09:00:00.5Z. -/
def cursorHalfSecond : Time := ⟨63900003600, 500000000, 0⟩

/-- The same second in a zone one hour east of UTC: 2025-11-29T10:00:00+01:00. -/
def cursorEastern : Time := ⟨63900003600, 0, 3600⟩

/-- The upstream table with one alert, created at `cursorHalfSecond`. -/
def upstreamRows : List ExternalAlert := [⟨"firewall", "high", "port scan", cursorHalfSecond⟩]

/-! ## The helpers and the loop -/

theorem Intn_pos (env : Env) (n : Nat) (w : World) (h : n ≠ 0) :
    Intn env n w = some (env.rand w.randCalls % n, { w with randCalls := w.randCalls + 1 }) := by
  simp [Intn, h]

theorem alertTypes_getElem_mod (r : Nat) :
    alertTypes[r % alertTypes.length]? = some (alertTypes.getD (r % alertTypes.length) "") := by
  have h : r % alertTypes.length < alertTypes.length := Nat.mod_lt _ (by decide)
  rw [List.getD_eq_getElem?_getD, List.getElem?_eq_getElem h]
  rfl

theorem getRandomEnrichmentType_eq (env : Env) (w : World) :
    getRandomEnrichmentType env w =
      some (alertTypes.getD (env.rand w.randCalls % alertTypes.length) "",
        { w with randCalls := w.randCalls + 1 }) := by
  have h5 : alertTypes.length ≠ 0 := by decide
  simp only [getRandomEnrichmentType, Intn_pos env _ w h5, alertTypes_getElem_mod]

theorem generateRandomIP_eq (env : Env) (w : World) :
    generateRandomIP env w = some (ipOf env w, { w with randCalls := w.randCalls + 4 }) := by
  simp [generateRandomIP, Intn, ipOf]

theorem argsOf_key (env : Env) (a : ExternalAlert) (n r : Nat) :
    (argsOf env a n r).key = a.key := rfl

theorem processAlerts_cons_some (env : Env) (a : ExternalAlert) (rest : List ExternalAlert)
    (sc : Nat) (w : World) (e : GoError) (h : env.ctxErr w.ctxChecks = some e) :
    processAlerts env (a :: rest) sc w =
      (.ret (some e), ({ w with ctxChecks := w.ctxChecks + 1 } : World).log (.Cancelled sc)) := by
  simp only [processAlerts, h]

theorem processAlerts_cons_none (env : Env) (a : ExternalAlert) (rest : List ExternalAlert)
    (sc : Nat) (w : World) (h : env.ctxErr w.ctxChecks = none) :
    ∃ w1 : World,
      processAlerts env (a :: rest) sc w =
          processAlerts env rest
            (match env.CreateAlert w.createCalls (argsOf env a w.nowCalls w.randCalls) with
              | some _ => sc
              | none => sc + 1) w1 ∧
        w1.trace = w.trace ++ [.CreateAlert (argsOf env a w.nowCalls w.randCalls)] ∧
        w1.ctxChecks = w.ctxChecks + 1 ∧ w1.createCalls = w.createCalls + 1 ∧
        w1.nowCalls = w.nowCalls + 1 ∧ w1.randCalls = w.randCalls + 5 := by
  simp only [processAlerts, h, timeNow, getRandomEnrichmentType_eq, generateRandomIP_eq]
  rcases hm : env.Marshal
      [("source", .str a.Source), ("severity", .str a.Severity),
       ("description", .str a.Description), ("created_at", .time a.CreatedAt),
       ("synced_at", .time (env.Now w.nowCalls))] with ⟨json, _ | me⟩ <;>
  · simp only [argsOf, wholeEventOf, hm, World.log, World.call, ipOf, World.init]
    split <;> exact ⟨_, rfl, rfl, rfl, rfl, rfl, rfl⟩

/-- What the loop does on any list: it handles the first `m` records, making
one `CreateAlert` call for each in order with the record fields unchanged, and
either `m` is the whole list and the loop runs to its end, or the check before
record `m` found the context cancelled and the loop returns that error. -/
theorem processAlerts_spec (env : Env) (l : List ExternalAlert) : ∀ (sc : Nat) (w : World),
    ∃ (m : Nat) (cs : List CreateAlertArgs), m ≤ l.length ∧
      (processAlerts env l sc w).2.trace = w.trace ++ cs.map Call.CreateAlert ∧
      cs.map CreateAlertArgs.key = (l.take m).map ExternalAlert.key ∧
      (∀ j, j < m → env.ctxErr (w.ctxChecks + j) = none) ∧
      ((m = l.length ∧ ∃ sc1, (processAlerts env l sc w).1 = .done sc1) ∨
       (m < l.length ∧ ∃ e, env.ctxErr (w.ctxChecks + m) = some e ∧
          (processAlerts env l sc w).1 = .ret (some e))) := by
  induction l with
  | nil =>
    intro sc w
    exact ⟨0, [], le_refl _, by simp [processAlerts], rfl, by simp,
      Or.inl ⟨rfl, sc, rfl⟩⟩
  | cons a rest ih =>
    intro sc w
    rcases h : env.ctxErr w.ctxChecks with _ | e
    · obtain ⟨w1, heq, htr, hck, -, -, -⟩ := processAlerts_cons_none env a rest sc w h
      rw [heq]
      obtain ⟨m, cs, hm, htr1, hkey, hnone, hexit⟩ := ih _ w1
      refine ⟨m + 1, argsOf env a w.nowCalls w.randCalls :: cs, by simpa using hm, ?_, ?_, ?_, ?_⟩
      · rw [htr1, htr]; simp
      · simp [hkey, argsOf_key]
      · intro j hj
        cases j with
        | zero => simpa using h
        | succ j =>
          have := hnone j (by omega)
          rw [hck] at this
          rw [← this]; congr 1; omega
      · rcases hexit with ⟨hlen, hd⟩ | ⟨hlt, e, he, hr⟩
        · exact Or.inl ⟨by simp [hlen], hd⟩
        · refine Or.inr ⟨by simpa using hlt, e, ?_, hr⟩
          rw [hck] at he
          rw [← he]; congr 1; omega
    · rw [processAlerts_cons_some env a rest sc w e h]
      exact ⟨0, [], Nat.zero_le _, by simp [World.log], rfl, by simp,
        Or.inr ⟨by simp, e, by simpa using h, rfl⟩⟩

/-- The loop does not read the log: from worlds with the same calls it leaves
the same way, in worlds with the same calls. -/
theorem processAlerts_sameCalls (env : Env) (l : List ExternalAlert) :
    ∀ (sc : Nat) (w w' : World), w.sameCalls w' →
      (processAlerts env l sc w).1 = (processAlerts env l sc w').1 ∧
        (processAlerts env l sc w).2.sameCalls (processAlerts env l sc w').2 := by
  induction l with
  | nil => intro sc w w' h; exact ⟨rfl, h⟩
  | cons a rest ih =>
    intro sc w w' hs
    obtain ⟨h1, h2, h3, h4, h5⟩ := hs
    rcases h : env.ctxErr w.ctxChecks with _ | e
    · have h' : env.ctxErr w'.ctxChecks = none := by rw [← h2]; exact h
      obtain ⟨w1, heq, a1, a2, a3, a4, a5⟩ := processAlerts_cons_none env a rest sc w h
      obtain ⟨w1', heq', b1, b2, b3, b4, b5⟩ := processAlerts_cons_none env a rest sc w' h'
      rw [heq, heq', ← h3, ← h4, ← h5]
      apply ih
      refine ⟨?_, ?_, ?_, ?_, ?_⟩
      · rw [a1, b1, h1, h4, h5]
      · rw [a2, b2, h2]
      · rw [a3, b3, h3]
      · rw [a4, b4, h4]
      · rw [a5, b5, h5]
    · have h' : env.ctxErr w'.ctxChecks = some e := by rw [← h2]; exact h
      rw [processAlerts_cons_some env a rest sc w e h, processAlerts_cons_some env a rest sc w' e h']
      exact ⟨rfl, h1, by simp [World.log, h2], h3, h4, h5⟩

theorem afterFetch_sameCalls (env : Env) :
    (afterFetch env).sameCalls ⟨openingCalls env, [], 0, 0, 0, 0⟩ := by
  unfold afterFetch openingCalls fetchCallOf World.sameCalls
  rcases env.CheckHealth with _ | he <;> rcases env.GetLastSyncTime with ⟨t, _ | ge⟩ <;>
    by_cases hz : (cursorOf env).IsZero = true <;>
    simp [hz, World.log, World.call, World.init]

/-- A pass is its three opening calls, then, by the answer to the fetch: the
error return, the empty short-circuit, or the loop followed by `afterLoop`. -/
theorem PerformSync_unfold (env : Env) :
    PerformSync env World.init =
      match env.answer (fetchCallOf env) with
      | (_, some e) =>
        (.returned (some (Errorf "failed to fetch alerts from mock API: " e)), afterFetch env)
      | (l, none) =>
        if l.length = 0 then
          (.returned none, ((afterFetch env).log (.Fetched l.length)).log .NoNewAlerts)
        else
          afterLoop env l.length
            (processAlerts env l 0 ((afterFetch env).log (.Fetched l.length))) := by
  unfold PerformSync afterFetch fetchCallOf cursorOf
  rcases hg : env.GetLastSyncTime with ⟨t, _ | ge⟩
  · by_cases hz : t.IsZero = true
    · simp only [hz, if_true, Env.answer]
      rcases hf : env.FetchAllAlerts with ⟨l, _ | fe⟩
      · by_cases hl : l.length = 0
        · simp only [hl, if_true]
        · simp only [hl, if_false]
          rcases hp : processAlerts env l 0 _ with ⟨_ | _ | _, w⟩ <;> rfl
      · rfl
    · have hz1 : t.IsZero = false := by simpa using hz
      simp only [hz1, Bool.false_eq_true, if_false, Env.answer]
      rcases hf : env.FetchAlertsSince t with ⟨l, _ | fe⟩
      · by_cases hl : l.length = 0
        · simp only [hl, if_true]
        · simp only [hl, if_false]
          rcases hp : processAlerts env l 0 _ with ⟨_ | _ | _, w⟩ <;> rfl
      · rfl
  · have hz : Time.zero.IsZero = true := rfl
    simp only [hz, if_true, Env.answer]
    rcases hf : env.FetchAllAlerts with ⟨l, _ | fe⟩
    · by_cases hl : l.length = 0
      · simp only [hl, if_true]
      · simp only [hl, if_false]
        rcases hp : processAlerts env l 0 _ with ⟨_ | _ | _, w⟩ <;> rfl
    · rfl

/-! ## Reading the trace of a pass -/

theorem createCallsOf_append (xs ys : List Call) :
    createCallsOf (xs ++ ys) = createCallsOf xs ++ createCallsOf ys := by
  induction xs with
  | nil => rfl
  | cons c cs ih => cases c <;> simp [createCallsOf, ih]

theorem updateCallsOf_append (xs ys : List Call) :
    updateCallsOf (xs ++ ys) = updateCallsOf xs ++ updateCallsOf ys := by
  induction xs with
  | nil => rfl
  | cons c cs ih => cases c <;> simp [updateCallsOf, ih]

theorem createCallsOf_map (cs : List CreateAlertArgs) :
    createCallsOf (cs.map Call.CreateAlert) = cs := by
  induction cs with
  | nil => rfl
  | cons c cs ih => simp [createCallsOf, ih]

theorem updateCallsOf_map (cs : List CreateAlertArgs) :
    updateCallsOf (cs.map Call.CreateAlert) = [] := by
  induction cs with
  | nil => rfl
  | cons c cs ih => simp [updateCallsOf, ih]

theorem fetchCallsOf_map (cs : List CreateAlertArgs) :
    fetchCallsOf (cs.map Call.CreateAlert) = [] := by
  induction cs with
  | nil => rfl
  | cons c cs ih =>
    unfold fetchCallsOf at ih ⊢
    simp [List.filter_cons, Call.isFetch]

theorem fetchCallOf_cases (env : Env) :
    fetchCallOf env = .FetchAllAlerts ∨ ∃ t, fetchCallOf env = .FetchAlertsSince t := by
  unfold fetchCallOf
  split
  · exact Or.inl rfl
  · exact Or.inr ⟨_, rfl⟩

theorem createCallsOf_opening (env : Env) : createCallsOf (openingCalls env) = [] := by
  rcases fetchCallOf_cases env with h | ⟨t, h⟩ <;> simp [openingCalls, h, createCallsOf]

theorem updateCallsOf_opening (env : Env) : updateCallsOf (openingCalls env) = [] := by
  rcases fetchCallOf_cases env with h | ⟨t, h⟩ <;> simp [openingCalls, h, updateCallsOf]

theorem fetchCallsOf_opening (env : Env) :
    fetchCallsOf (openingCalls env) = [fetchCallOf env] := by
  rcases fetchCallOf_cases env with h | ⟨t, h⟩ <;>
    simp [openingCalls, h, fetchCallsOf, List.filter_cons, Call.isFetch]

theorem createCallsOf_passTrace (env : Env) (cs : List CreateAlertArgs) (upd : List Time) :
    createCallsOf (passTrace env cs upd) = cs := by
  have h : createCallsOf (upd.map Call.UpdateLastSyncTime) = [] := by
    induction upd with
    | nil => rfl
    | cons c cs ih => simp [createCallsOf, ih]
  simp [passTrace, createCallsOf_append, createCallsOf_opening, createCallsOf_map, h]

theorem updateCallsOf_passTrace (env : Env) (cs : List CreateAlertArgs) (upd : List Time) :
    updateCallsOf (passTrace env cs upd) = upd := by
  have h : updateCallsOf (upd.map Call.UpdateLastSyncTime) = upd := by
    induction upd with
    | nil => rfl
    | cons c cs ih => simp [updateCallsOf, ih]
  simp [passTrace, updateCallsOf_append, updateCallsOf_opening, updateCallsOf_map, h]

theorem fetchCallsOf_passTrace (env : Env) (cs : List CreateAlertArgs) (upd : List Time) :
    fetchCallsOf (passTrace env cs upd) = [fetchCallOf env] := by
  have h : fetchCallsOf (upd.map Call.UpdateLastSyncTime) = [] := by
    induction upd with
    | nil => rfl
    | cons c cs ih =>
      unfold fetchCallsOf at ih ⊢
      simp [List.filter_cons, Call.isFetch]
  have h1 := fetchCallsOf_opening env
  have h2 := fetchCallsOf_map cs
  unfold fetchCallsOf at h h1 h2 ⊢
  simp [passTrace, List.filter_append, h, h1, h2]

/-- A pass whose fetch fails returns the wrapped error right after the opening
calls. -/
theorem pass_fetch_error (env : Env) (l : List ExternalAlert) (e : GoError)
    (h : env.answer (fetchCallOf env) = (l, some e)) :
    (PerformSync env World.init).1 =
        .returned (some (Errorf "failed to fetch alerts from mock API: " e)) ∧
      (PerformSync env World.init).2.trace = passTrace env [] [] := by
  rw [PerformSync_unfold, h]
  exact ⟨rfl, by simpa [passTrace] using (afterFetch_sameCalls env).1⟩

/-- A pass whose fetch succeeds with the list `l`: it handles the first `m`
records; either `m` is all of them, the pass succeeds, and
`UpdateLastSyncTime` is called once when `l` is not empty and not at all when it
is; or the check before record `m` found the context cancelled, and the pass
returns that error without calling `UpdateLastSyncTime`. -/
theorem pass_fetch_ok (env : Env) (l : List ExternalAlert)
    (h : env.answer (fetchCallOf env) = (l, none)) :
    ∃ (m : Nat) (cs : List CreateAlertArgs), m ≤ l.length ∧
      cs.map CreateAlertArgs.key = (l.take m).map ExternalAlert.key ∧
      (∀ j, j < m → env.ctxErr j = none) ∧
      ((m = l.length ∧ (PerformSync env World.init).1 = .returned none ∧
          ∃ upd, upd.length = (if l.length = 0 then 0 else 1) ∧
            (PerformSync env World.init).2.trace = passTrace env cs upd) ∨
       (m < l.length ∧ ∃ e, env.ctxErr m = some e ∧
          (PerformSync env World.init).1 = .returned (some e) ∧
          (PerformSync env World.init).2.trace = passTrace env cs [])) := by
  rw [PerformSync_unfold, h]
  obtain ⟨h1, h2, -, -, -⟩ := afterFetch_sameCalls env
  by_cases hl : l.length = 0
  · simp only [if_pos hl]
    refine ⟨0, [], Nat.zero_le _, by simp, by simp, Or.inl ⟨hl.symm, trivial, [], rfl, ?_⟩⟩
    simpa [passTrace, World.log] using h1
  · simp only [if_neg hl]
    obtain ⟨m, cs, hm, htr, hkey, hnone, hexit⟩ :=
      processAlerts_spec env l 0 ((afterFetch env).log (.Fetched l.length))
    have h1' : ((afterFetch env).log (.Fetched l.length)).trace = openingCalls env := h1
    have h2' : ((afterFetch env).log (.Fetched l.length)).ctxChecks = 0 := h2
    rw [h1'] at htr
    rw [h2'] at hnone hexit
    simp only [Nat.zero_add] at hnone hexit
    refine ⟨m, cs, hm, hkey, hnone, ?_⟩
    rcases hp : processAlerts env l 0 ((afterFetch env).log (.Fetched l.length)) with ⟨ex, w⟩
    rw [hp] at htr hexit
    rcases hexit with ⟨hlen, sc1, hd⟩ | ⟨hlt, e, he, hr⟩
    · simp only at hd htr
      subst hd
      refine Or.inl ⟨hlen, rfl, [env.Now w.nowCalls], rfl, ?_⟩
      simp only [afterLoop]
      split <;> simp [World.log, World.call, htr, passTrace]
    · simp only at hr htr
      subst hr
      exact Or.inr ⟨hlt, e, he, rfl, by simp [afterLoop, htr, passTrace]⟩

/-- Every pass makes exactly one fetch call, the one for its cursor. -/
theorem pass_fetchCalls (env : Env) :
    fetchCallsOf (PerformSync env World.init).2.trace = [fetchCallOf env] := by
  rcases h : env.answer (fetchCallOf env) with ⟨l, _ | e⟩
  · obtain ⟨m, cs, -, -, -, hh⟩ := pass_fetch_ok env l h
    rcases hh with ⟨-, -, upd, -, ht⟩ | ⟨-, e, -, -, ht⟩ <;>
      rw [ht, fetchCallsOf_passTrace]
  · rw [(pass_fetch_error env l e h).2, fetchCallsOf_passTrace]

theorem mem_fetchCalls (env : Env) (c : Call)
    (h : c ∈ fetchCallsOf (PerformSync env World.init).2.trace) : c = fetchCallOf env := by
  rw [pass_fetchCalls] at h
  simpa using h

/-! ## The sync pass: claims -/

/-- C1: when the fetch call a pass makes returns an error `e`, `PerformSync`
returns the error that wraps `e` with the message "failed to fetch alerts from
mock API: " followed by the text of `e`, and the pass makes no `CreateAlert`
call and no `UpdateLastSyncTime` call. -/
theorem C1_fetch_error_aborts_pass (env : Env) (c : Call) (l : List ExternalAlert)
    (e : GoError) (hc : c ∈ fetchCallsOf (PerformSync env World.init).2.trace)
    (he : env.answer c = (l, some e)) :
    (PerformSync env World.init).1 =
        .returned (some (.wrapError ("failed to fetch alerts from mock API: " ++ e.Error) e)) ∧
      createCallsOf (PerformSync env World.init).2.trace = [] ∧
      updateCallsOf (PerformSync env World.init).2.trace = [] := by
  rw [mem_fetchCalls env c hc] at he
  obtain ⟨h1, h2⟩ := pass_fetch_error env l e he
  rw [h2, createCallsOf_passTrace, updateCallsOf_passTrace]
  exact ⟨h1, rfl, rfl⟩

/-- Witness of C1: the pass of `envFetchErr`, whose `FetchAllAlerts` fails with
"API error". -/
theorem C1_fetch_error_aborts_pass_witness :
    (Call.FetchAllAlerts ∈ fetchCallsOf (PerformSync envFetchErr World.init).2.trace ∧
        envFetchErr.answer .FetchAllAlerts = ([], some (.errorString "API error"))) ∧
      ((PerformSync envFetchErr World.init).1 =
          .returned (some (.wrapError "failed to fetch alerts from mock API: API error"
            (.errorString "API error"))) ∧
        createCallsOf (PerformSync envFetchErr World.init).2.trace = [] ∧
        updateCallsOf (PerformSync envFetchErr World.init).2.trace = []) :=
  ⟨⟨by decide, rfl⟩,
    C1_fetch_error_aborts_pass envFetchErr .FetchAllAlerts [] (.errorString "API error")
      (by decide) rfl⟩

/-- C2: when the fetch call a pass makes succeeds with an empty list,
`PerformSync` returns nil and the pass makes no `CreateAlert` call. -/
theorem C2_empty_fetch_succeeds_without_create (env : Env) (c : Call)
    (hc : c ∈ fetchCallsOf (PerformSync env World.init).2.trace)
    (he : env.answer c = ([], none)) :
    (PerformSync env World.init).1 = .returned none ∧
      createCallsOf (PerformSync env World.init).2.trace = [] := by
  rw [mem_fetchCalls env c hc] at he
  obtain ⟨m, cs, hm, hkey, -, hh⟩ := pass_fetch_ok env [] he
  have hcs : cs = [] := by simpa using hkey
  subst hcs
  rcases hh with ⟨-, hr, upd, -, ht⟩ | ⟨hlt, -⟩
  · rw [ht, createCallsOf_passTrace]
    exact ⟨hr, rfl⟩
  · simp at hlt

/-- Witness of C2: the pass of `envEmpty`. -/
theorem C2_empty_fetch_succeeds_without_create_witness :
    (Call.FetchAllAlerts ∈ fetchCallsOf (PerformSync envEmpty World.init).2.trace ∧
        envEmpty.answer .FetchAllAlerts = ([], none)) ∧
      ((PerformSync envEmpty World.init).1 = .returned none ∧
        createCallsOf (PerformSync envEmpty World.init).2.trace = []) :=
  ⟨⟨by decide, rfl⟩,
    C2_empty_fetch_succeeds_without_create envEmpty .FetchAllAlerts (by decide) rfl⟩

/-- C3: `PerformSync` returns an error exactly when the fetch call of the pass
returned an error or one of the per-record checks of the loop (the checks
before records `0 .. len-1` of the fetched list) sees the context cancelled; so
when the fetch succeeded and no check sees a cancellation it returns nil,
whatever `CheckHealth`, `GetLastSyncTime`, `UpdateLastSyncTime` and the
individual `CreateAlert` calls answer. -/
theorem C3_error_iff_fetch_failed_or_cancelled (env : Env) (c : Call)
    (hc : c ∈ fetchCallsOf (PerformSync env World.init).2.trace) :
    ((∃ e, (PerformSync env World.init).1 = .returned (some e)) ↔
        ((env.answer c).2 ≠ none ∨
          ∃ k, k < (env.answer c).1.length ∧ env.ctxErr k ≠ none)) ∧
      ((env.answer c).2 = none →
        (∀ k, k < (env.answer c).1.length → env.ctxErr k = none) →
        (PerformSync env World.init).1 = .returned none) := by
  rw [mem_fetchCalls env c hc]
  rcases h : env.answer (fetchCallOf env) with ⟨l, _ | fe⟩
  · obtain ⟨m, cs, hm, -, hnone, hh⟩ := pass_fetch_ok env l h
    rcases hh with ⟨hlen, hr, -⟩ | ⟨hlt, e, he, hr, -⟩
    · refine ⟨⟨?_, ?_⟩, fun _ _ => hr⟩
      · rintro ⟨e, he⟩
        rw [hr] at he
        cases he
      · rintro (h1 | ⟨k, hk, hck⟩)
        · exact absurd rfl h1
        · exact absurd (hnone k (by simpa [hlen] using hk)) hck
    · refine ⟨⟨fun _ => Or.inr ⟨m, hlt, by simp [he]⟩, fun _ => ⟨e, hr⟩⟩, ?_⟩
      intro _ hall
      have := hall m hlt
      rw [he] at this
      cases this
  · refine ⟨⟨fun _ => Or.inl (by simp), fun _ => ⟨_, (pass_fetch_error env l fe h).1⟩⟩, ?_⟩
    intro h1
    cases h1

/-- Witness of C3: in the pass of `envDegraded` the health probe, the first
`CreateAlert` and `UpdateLastSyncTime` all fail, and the pass returns nil. -/
theorem C3_error_iff_fetch_failed_or_cancelled_witness :
    Call.FetchAllAlerts ∈ fetchCallsOf (PerformSync envDegraded World.init).2.trace ∧
      (PerformSync envDegraded World.init).1 = .returned none :=
  ⟨by decide,
    (C3_error_iff_fetch_failed_or_cancelled envDegraded .FetchAllAlerts (by decide)).2 rfl
      (fun _ _ => rfl)⟩

/-- C4: for a fetched list `l` and an index `k < len(l)`, when the checks
before records `0 .. k-1` see no cancellation and the check before record `k`
sees the context error `e`, `PerformSync` returns exactly `e`, the
`CreateAlert` calls of the pass are those of the records before index `k` (in
order, with their fields), and `UpdateLastSyncTime` is not called. -/
theorem C4_cancellation_stops_loop (env : Env) (c : Call) (l : List ExternalAlert) (k : Nat)
    (e : GoError) (hc : c ∈ fetchCallsOf (PerformSync env World.init).2.trace)
    (he : env.answer c = (l, none)) (hk : k < l.length)
    (hbefore : ∀ j, j < k → env.ctxErr j = none) (hat : env.ctxErr k = some e) :
    (PerformSync env World.init).1 = .returned (some e) ∧
      (createCallsOf (PerformSync env World.init).2.trace).map CreateAlertArgs.key =
        (l.take k).map ExternalAlert.key ∧
      (createCallsOf (PerformSync env World.init).2.trace).length = k ∧
      updateCallsOf (PerformSync env World.init).2.trace = [] := by
  rw [mem_fetchCalls env c hc] at he
  obtain ⟨m, cs, hm, hkey, hnone, hh⟩ := pass_fetch_ok env l he
  have hmk : m = k := by
    rcases hh with ⟨hlen, -⟩ | ⟨hlt, e1, he1, -⟩
    · have := hnone k (by omega)
      rw [hat] at this
      cases this
    · rcases Nat.lt_trichotomy m k with h | h | h
      · have := hbefore m h
        rw [he1] at this
        cases this
      · exact h
      · have := hnone k h
        rw [hat] at this
        cases this
  subst hmk
  rcases hh with ⟨hlen, -⟩ | ⟨hlt, e1, he1, hr, ht⟩
  · omega
  · rw [hat] at he1
    cases he1
    rw [ht, createCallsOf_passTrace, updateCallsOf_passTrace]
    refine ⟨hr, hkey, ?_, rfl⟩
    have := congrArg List.length hkey
    simpa [Nat.min_eq_left hm] using this

/-- Witness of C4: in the pass of `envCancel` the check before record 1 sees
`context.Canceled`; the pass returns it after persisting record 0 only. -/
theorem C4_cancellation_stops_loop_witness :
    (Call.FetchAllAlerts ∈ fetchCallsOf (PerformSync envCancel World.init).2.trace ∧
        envCancel.answer .FetchAllAlerts = (sampleAlerts, none) ∧ 1 < sampleAlerts.length ∧
        (∀ j, j < 1 → envCancel.ctxErr j = none) ∧ envCancel.ctxErr 1 = some .Canceled) ∧
      ((PerformSync envCancel World.init).1 = .returned (some .Canceled) ∧
        (createCallsOf (PerformSync envCancel World.init).2.trace).map CreateAlertArgs.key =
          (sampleAlerts.take 1).map ExternalAlert.key ∧
        (createCallsOf (PerformSync envCancel World.init).2.trace).length = 1 ∧
        updateCallsOf (PerformSync envCancel World.init).2.trace = []) :=
  ⟨⟨by decide, rfl, by decide, by decide, rfl⟩,
    C4_cancellation_stops_loop envCancel .FetchAllAlerts sampleAlerts 1 .Canceled (by decide)
      rfl (by decide) (by decide) rfl⟩

/-- C6: every pass makes exactly one fetch call; when `GetLastSyncTime`
succeeds with a zero timestamp the call is `FetchAllAlerts`, and when it
succeeds with a non-zero timestamp `t` the call is `FetchAlertsSince` with
cursor `t`. -/
theorem C6_one_fetch_chosen_by_watermark (env : Env) :
    (fetchCallsOf (PerformSync env World.init).2.trace).length = 1 ∧
      (∀ t, env.GetLastSyncTime = (t, none) → t.IsZero = true →
        fetchCallsOf (PerformSync env World.init).2.trace = [.FetchAllAlerts]) ∧
      (∀ t, env.GetLastSyncTime = (t, none) → t.IsZero = false →
        fetchCallsOf (PerformSync env World.init).2.trace = [.FetchAlertsSince t]) := by
  rw [pass_fetchCalls]
  refine ⟨rfl, ?_, ?_⟩
  · intro t h hz
    simp [fetchCallOf, cursorOf, h, hz]
  · intro t h hz
    simp [fetchCallOf, cursorOf, h, hz]

/-- Witness of C6: the incremental pass of `envIncremental` fetches since its
watermark, and the first sync of `envFirst` fetches everything. -/
theorem C6_one_fetch_chosen_by_watermark_witness :
    fetchCallsOf (PerformSync envIncremental World.init).2.trace =
        [.FetchAlertsSince ⟨63900000000, 0, 0⟩] ∧
      fetchCallsOf (PerformSync envFirst World.init).2.trace = [.FetchAllAlerts] :=
  ⟨(C6_one_fetch_chosen_by_watermark envIncremental).2.2 ⟨63900000000, 0, 0⟩ rfl rfl,
    (C6_one_fetch_chosen_by_watermark envFirst).2.1 Time.zero rfl rfl⟩

/-- C8: when the fetch call of a pass succeeds with the list `l` and no
per-record check sees a cancellation, the pass makes exactly `len(l)`
`CreateAlert` calls, the `i`-th carrying the source, severity, description and
createdAt of `l[i]`, whatever the individual `CreateAlert` calls answer. -/
theorem C8_one_create_per_record_in_order (env : Env) (c : Call) (l : List ExternalAlert)
    (hc : c ∈ fetchCallsOf (PerformSync env World.init).2.trace)
    (he : env.answer c = (l, none)) (hctx : ∀ k, k < l.length → env.ctxErr k = none) :
    (createCallsOf (PerformSync env World.init).2.trace).map CreateAlertArgs.key =
        l.map ExternalAlert.key ∧
      (createCallsOf (PerformSync env World.init).2.trace).length = l.length := by
  rw [mem_fetchCalls env c hc] at he
  obtain ⟨m, cs, hm, hkey, hnone, hh⟩ := pass_fetch_ok env l he
  rcases hh with ⟨hlen, -, upd, -, ht⟩ | ⟨hlt, e1, he1, -⟩
  · subst hlen
    rw [List.take_length] at hkey
    rw [ht, createCallsOf_passTrace]
    exact ⟨hkey, by simpa using congrArg List.length hkey⟩
  · have := hctx m hlt
    rw [he1] at this
    cases this

/-- Witness of C8: in the pass of `envDegraded` the `CreateAlert` call for the
first record fails and the call for the second record is made all the same. -/
theorem C8_one_create_per_record_in_order_witness :
    (Call.FetchAllAlerts ∈ fetchCallsOf (PerformSync envDegraded World.init).2.trace ∧
        envDegraded.answer .FetchAllAlerts = (sampleAlerts, none) ∧
        (∀ k, k < sampleAlerts.length → envDegraded.ctxErr k = none)) ∧
      ((createCallsOf (PerformSync envDegraded World.init).2.trace).map CreateAlertArgs.key =
          sampleAlerts.map ExternalAlert.key ∧
        (createCallsOf (PerformSync envDegraded World.init).2.trace).length =
          sampleAlerts.length) :=
  ⟨⟨by decide, rfl, fun _ _ => rfl⟩,
    C8_one_create_per_record_in_order envDegraded .FetchAllAlerts sampleAlerts (by decide) rfl
      (fun _ _ => rfl)⟩

/-- C10, as stated, fails: the pass of `envEmpty` (the fetch returns no record)
reports success and never calls `UpdateLastSyncTime`. -/
theorem C10_counterexample_empty_fetch :
    (PerformSync envEmpty World.init).1 = .returned none ∧
      (updateCallsOf (PerformSync envEmpty World.init).2.trace).length ≠ 1 := by
  decide

/-- C10, amended: in a pass that reports success, `UpdateLastSyncTime` is
called exactly once when the fetched list is not empty, and not at all when it
is empty. -/
theorem C10_update_once_unless_empty (env : Env) (c : Call)
    (hc : c ∈ fetchCallsOf (PerformSync env World.init).2.trace)
    (hs : (PerformSync env World.init).1 = .returned none) :
    (updateCallsOf (PerformSync env World.init).2.trace).length =
      if (env.answer c).1.length = 0 then 0 else 1 := by
  rw [mem_fetchCalls env c hc]
  rcases h : env.answer (fetchCallOf env) with ⟨l, _ | fe⟩
  · obtain ⟨m, cs, -, -, -, hh⟩ := pass_fetch_ok env l h
    rcases hh with ⟨-, -, upd, hupd, ht⟩ | ⟨-, e1, -, hr, -⟩
    · rw [ht, updateCallsOf_passTrace]
      exact hupd
    · rw [hr] at hs
      cases hs
  · rw [(pass_fetch_error env l fe h).1] at hs
    cases hs

/-- Witness of C10 amended: the successful pass of `envFirst` over two records
calls `UpdateLastSyncTime` once. -/
theorem C10_update_once_unless_empty_witness :
    (Call.FetchAllAlerts ∈ fetchCallsOf (PerformSync envFirst World.init).2.trace ∧
        (PerformSync envFirst World.init).1 = .returned none) ∧
      (updateCallsOf (PerformSync envFirst World.init).2.trace).length = 1 :=
  ⟨⟨by decide, by decide⟩,
    C10_update_once_unless_empty envFirst .FetchAllAlerts (by decide) (by decide)⟩

theorem World.sameCalls_symm {w w' : World} (h : w.sameCalls w') : w'.sameCalls w :=
  ⟨h.1.symm, h.2.1.symm, h.2.2.1.symm, h.2.2.2.1.symm, h.2.2.2.2.symm⟩

theorem World.sameCalls_trans {w w' w'' : World} (h : w.sameCalls w') (h' : w'.sameCalls w'') :
    w.sameCalls w'' :=
  ⟨h.1.trans h'.1, h.2.1.trans h'.2.1, h.2.2.1.trans h'.2.2.1, h.2.2.2.1.trans h'.2.2.2.1,
    h.2.2.2.2.trans h'.2.2.2.2⟩

theorem World.sameCalls_log (w : World) (l : LogLine) : (w.log l).sameCalls w :=
  ⟨rfl, rfl, rfl, rfl, rfl⟩

/-- The loop reads the environment only through `CreateAlert`, `ctxErr`,
`Marshal`, `Now` and `rand`. -/
theorem processAlerts_congr (env env' : Env) (h1 : env'.CreateAlert = env.CreateAlert)
    (h2 : env'.ctxErr = env.ctxErr) (h3 : env'.Marshal = env.Marshal)
    (h4 : env'.Now = env.Now) (h5 : env'.rand = env.rand) (l : List ExternalAlert) :
    ∀ (sc : Nat) (w : World), processAlerts env' l sc w = processAlerts env l sc w := by
  induction l with
  | nil => intro sc w; rfl
  | cons a rest ih =>
    intro sc w
    simp only [processAlerts, timeNow, getRandomEnrichmentType_eq, generateRandomIP_eq, ipOf,
      h1, h2, h3, h4, h5, ih]

/-- The part after the loop keeps equal exits and equal calls equal. -/
theorem afterLoop_sameCalls (env env' : Env) (hN : env'.Now = env.Now) (n : Nat)
    (p p' : LoopExit × World) (h1 : p.1 = p'.1) (h2 : p.2.sameCalls p'.2) :
    (afterLoop env' n p).1 = (afterLoop env n p').1 ∧
      (afterLoop env' n p).2.sameCalls (afterLoop env n p').2 := by
  obtain ⟨ex, w⟩ := p
  obtain ⟨ex', w'⟩ := p'
  simp only at h1 h2
  subst h1
  obtain ⟨a1, a2, a3, a4, a5⟩ := h2
  cases ex with
  | ret e => exact ⟨rfl, a1, a2, a3, a4, a5⟩
  | panic => exact ⟨rfl, a1, a2, a3, a4, a5⟩
  | done sc =>
    simp only [afterLoop, hN, a4]
    refine ⟨trivial, ?_⟩
    rcases env.UpdateLastSyncTime (env.Now w'.nowCalls) with _ | e1 <;>
      rcases env'.UpdateLastSyncTime (env.Now w'.nowCalls) with _ | e2 <;>
      simp [World.sameCalls, World.log, World.call, a1, a2, a3, a4, a5]

/-- Two environments that make the same fetch call, get the same answer to it
and agree on what the loop reads give passes with the same result and the same
interface calls. -/
theorem pass_congr (env env' : Env) (h1 : env'.CreateAlert = env.CreateAlert)
    (h2 : env'.ctxErr = env.ctxErr) (h3 : env'.Marshal = env.Marshal)
    (h4 : env'.Now = env.Now) (h5 : env'.rand = env.rand)
    (hcall : fetchCallOf env' = fetchCallOf env)
    (hans : env'.answer (fetchCallOf env) = env.answer (fetchCallOf env)) :
    (PerformSync env' World.init).1 = (PerformSync env World.init).1 ∧
      (PerformSync env' World.init).2.sameCalls (PerformSync env World.init).2 := by
  have hw : (afterFetch env').sameCalls (afterFetch env) := by
    have a := afterFetch_sameCalls env'
    have b := afterFetch_sameCalls env
    rw [openingCalls, hcall] at a
    exact World.sameCalls_trans a (World.sameCalls_symm b)
  rw [PerformSync_unfold env', PerformSync_unfold env, hcall, hans]
  rcases env.answer (fetchCallOf env) with ⟨l, _ | fe⟩
  · by_cases hl : l.length = 0
    · simp only [if_pos hl]
      exact ⟨trivial, World.sameCalls_trans (World.sameCalls_log _ _)
        (World.sameCalls_trans (World.sameCalls_log _ _)
          (World.sameCalls_trans hw (World.sameCalls_symm
            (World.sameCalls_trans (World.sameCalls_log _ _) (World.sameCalls_log _ _)))))⟩
    · simp only [if_neg hl]
      apply afterLoop_sameCalls env env' h4
      · rw [processAlerts_congr env env' h1 h2 h3 h4 h5]
        exact (processAlerts_sameCalls env l 0 _ _
          (World.sameCalls_trans (World.sameCalls_log _ _)
            (World.sameCalls_trans hw (World.sameCalls_symm (World.sameCalls_log _ _))))).1
      · rw [processAlerts_congr env env' h1 h2 h3 h4 h5]
        exact (processAlerts_sameCalls env l 0 _ _
          (World.sameCalls_trans (World.sameCalls_log _ _)
            (World.sameCalls_trans hw (World.sameCalls_symm (World.sameCalls_log _ _))))).2
  · exact ⟨rfl, hw⟩

/-- A pass whose fetch succeeds and whose checks never see a cancellation
returns nil after one `CreateAlert` call per record, in order. -/
theorem pass_never_cancelled (env : Env) (l : List ExternalAlert)
    (h : env.answer (fetchCallOf env) = (l, none))
    (hctx : ∀ k, k < l.length → env.ctxErr k = none) :
    (PerformSync env World.init).1 = .returned none ∧
      (createCallsOf (PerformSync env World.init).2.trace).map CreateAlertArgs.key =
        l.map ExternalAlert.key := by
  obtain ⟨m, cs, hm, hkey, hnone, hh⟩ := pass_fetch_ok env l h
  rcases hh with ⟨hlen, hr, upd, -, ht⟩ | ⟨hlt, e1, he1, -⟩
  · subst hlen
    rw [List.take_length] at hkey
    rw [ht, createCallsOf_passTrace]
    exact ⟨hr, hkey⟩
  · have := hctx m hlt
    rw [he1] at this
    cases this

set_option maxRecDepth 100000 in
theorem fmtD_octet : ∀ n : Fin 256,
    (fmtD n.val).toList.all Char.isDigit = true ∧ decimalValue (fmtD n.val) = n.val := by
  decide

/-- C5: replacing the answer of `CheckHealth` by any other answer `hres`
changes neither what `PerformSync` returns nor the interface calls of the pass
(so neither the fetch call nor the sequence of `CreateAlert` calls with their
arguments); and a pass whose health probe fails, whose fetch succeeds with `l`
and whose context is never cancelled returns nil after a `CreateAlert` call for
each record of `l`. -/
theorem C5_health_result_does_not_influence_pass (env : Env) (hres : Option GoError) :
    (PerformSync { env with CheckHealth := hres } World.init).1 =
        (PerformSync env World.init).1 ∧
      (PerformSync { env with CheckHealth := hres } World.init).2.trace =
        (PerformSync env World.init).2.trace ∧
      (∀ (e : GoError) (c : Call) (l : List ExternalAlert), env.CheckHealth = some e →
        c ∈ fetchCallsOf (PerformSync env World.init).2.trace →
        env.answer c = (l, none) → (∀ k, k < l.length → env.ctxErr k = none) →
        (PerformSync env World.init).1 = .returned none ∧
          (createCallsOf (PerformSync env World.init).2.trace).map CreateAlertArgs.key =
            l.map ExternalAlert.key) := by
  have h := pass_congr env { env with CheckHealth := hres } rfl rfl rfl rfl rfl rfl
    (by rcases fetchCallOf_cases env with h | ⟨t, h⟩ <;> rw [h] <;> rfl)
  refine ⟨h.1, h.2.1, ?_⟩
  intro e c l _ hc he hctx
  rw [mem_fetchCalls env c hc] at he
  exact pass_never_cancelled env l he hctx

/-- Witness of C5: the pass of `envDegraded`, whose health probe fails, returns
nil after a `CreateAlert` call for each of the two fetched records. -/
theorem C5_health_result_does_not_influence_pass_witness :
    (envDegraded.CheckHealth = some (.errorString "health check failed") ∧
        Call.FetchAllAlerts ∈ fetchCallsOf (PerformSync envDegraded World.init).2.trace ∧
        envDegraded.answer .FetchAllAlerts = (sampleAlerts, none) ∧
        (∀ k, k < sampleAlerts.length → envDegraded.ctxErr k = none)) ∧
      ((PerformSync envDegraded World.init).1 = .returned none ∧
        (createCallsOf (PerformSync envDegraded World.init).2.trace).map CreateAlertArgs.key =
          sampleAlerts.map ExternalAlert.key) :=
  ⟨⟨rfl, by decide, rfl, fun _ _ => rfl⟩,
    (C5_health_result_does_not_influence_pass envDegraded none).2.2
      (.errorString "health check failed") .FetchAllAlerts sampleAlerts rfl (by decide) rfl
      (fun _ _ => rfl)⟩

/-- C7: when `GetLastSyncTime` returns an error (with whatever timestamp `t`),
the pass makes the fetch call `FetchAllAlerts`, and `PerformSync` returns the
same result and makes the same interface calls as the pass in which
`GetLastSyncTime` succeeds with a zero timestamp. -/
theorem C7_watermark_error_is_zero_watermark (env : Env) (t : Time) (e : GoError) (t0 : Time)
    (h : env.GetLastSyncTime = (t, some e)) (h0 : t0.IsZero = true) :
    fetchCallsOf (PerformSync env World.init).2.trace = [.FetchAllAlerts] ∧
      (PerformSync env World.init).1 =
        (PerformSync { env with GetLastSyncTime := (t0, none) } World.init).1 ∧
      (PerformSync env World.init).2.trace =
        (PerformSync { env with GetLastSyncTime := (t0, none) } World.init).2.trace := by
  have hf : fetchCallOf env = .FetchAllAlerts := by
    simp [fetchCallOf, cursorOf, h, Time.zero, Time.IsZero]
  have hf0 : fetchCallOf { env with GetLastSyncTime := (t0, none) } = .FetchAllAlerts := by
    simp [fetchCallOf, cursorOf, h0]
  have hp := pass_congr env { env with GetLastSyncTime := (t0, none) } rfl rfl rfl rfl rfl
    (by rw [hf, hf0]) (by rw [hf]; rfl)
  refine ⟨by rw [pass_fetchCalls, hf], hp.1.symm, hp.2.1.symm⟩

/-- Witness of C7: the pass of `envNoWatermark`, whose watermark read fails
with a non-zero timestamp, fetches everything and persists both records. -/
theorem C7_watermark_error_is_zero_watermark_witness :
    (envNoWatermark.GetLastSyncTime =
        (⟨63900000000, 0, 0⟩, some (.errorString "db down")) ∧ Time.zero.IsZero = true) ∧
      (fetchCallsOf (PerformSync envNoWatermark World.init).2.trace = [.FetchAllAlerts] ∧
        (PerformSync envNoWatermark World.init).1 =
          (PerformSync { envNoWatermark with GetLastSyncTime := (Time.zero, none) }
            World.init).1 ∧
        (PerformSync envNoWatermark World.init).2.trace =
          (PerformSync { envNoWatermark with GetLastSyncTime := (Time.zero, none) }
            World.init).2.trace) :=
  ⟨⟨rfl, rfl⟩,
    C7_watermark_error_is_zero_watermark envNoWatermark ⟨63900000000, 0, 0⟩
      (.errorString "db down") Time.zero rfl rfl⟩

/-- C9: whatever the generator draws, `getRandomEnrichmentType` does not panic:
its index is below the length of the slice, and it returns one of the five
categories; and `generateRandomIP` does not panic and returns four numbers,
each at most 255, printed in decimal digits and joined by dots. -/
theorem C9_random_helpers_in_range (env : Env) (w : World) :
    (∃ i s w1, Intn env alertTypes.length w = some (i, w1) ∧ i < alertTypes.length ∧
        alertTypes[i]? = some s ∧ getRandomEnrichmentType env w = some (s, w1) ∧
        s ∈ ["geo_location", "threat_intel", "user_context", "network_analysis",
          "behavioral_analysis"]) ∧
      (∃ a b c d w1, a ≤ 255 ∧ b ≤ 255 ∧ c ≤ 255 ∧ d ≤ 255 ∧
        generateRandomIP env w =
          some (fmtD a ++ "." ++ fmtD b ++ "." ++ fmtD c ++ "." ++ fmtD d, w1) ∧
        ∀ n ∈ [a, b, c, d],
          (fmtD n).toList.all Char.isDigit = true ∧ decimalValue (fmtD n) = n) := by
  constructor
  · have hlt : env.rand w.randCalls % alertTypes.length < alertTypes.length :=
      Nat.mod_lt _ (by decide)
    refine ⟨_, _, _, Intn_pos env _ w (by decide), hlt, alertTypes_getElem_mod _,
      getRandomEnrichmentType_eq env w, ?_⟩
    rw [List.getD_eq_getElem?_getD, List.getElem?_eq_getElem hlt]
    exact List.getElem_mem _
  · have h0 : env.rand w.randCalls % 256 < 256 := Nat.mod_lt _ (by decide)
    have h1 : env.rand (w.randCalls + 1) % 256 < 256 := Nat.mod_lt _ (by decide)
    have h2 : env.rand (w.randCalls + 2) % 256 < 256 := Nat.mod_lt _ (by decide)
    have h3 : env.rand (w.randCalls + 3) % 256 < 256 := Nat.mod_lt _ (by decide)
    refine ⟨_, _, _, _, _, by omega, by omega, by omega, by omega,
      generateRandomIP_eq env w, ?_⟩
    intro n hn
    simp only [List.mem_cons, List.mem_singleton, List.not_mem_nil, or_false] at hn
    rcases hn with rfl | rfl | rfl | rfl
    · exact fmtD_octet ⟨_, h0⟩
    · exact fmtD_octet ⟨_, h1⟩
    · exact fmtD_octet ⟨_, h2⟩
    · exact fmtD_octet ⟨_, h3⟩

/-! ## The read side: service and handlers -/

/-- C13: for every `days <= 0` the service operation `GetAlertsByDays` returns
a nil result and the error whose message is "service: days must be greater
than 0", and makes no storage call; for every `days > 0` it makes exactly one
storage call, `GetAlertsByDays` with the same value. -/
theorem C13_days_checked_before_storage (st : Storage) (days : Int) :
    (days ≤ 0 →
        AlertService.GetAlertsByDays st days =
            ((none, some (.errorString "service: days must be greater than 0")), []) ∧
          (GoError.errorString "service: days must be greater than 0").Error =
            "service: " ++ "days must be greater than 0") ∧
      (0 < days →
        (AlertService.GetAlertsByDays st days).2 = [.storageGetAlertsByDays days]) := by
  constructor
  · intro h
    refine ⟨?_, by decide⟩
    simp [AlertService.GetAlertsByDays, h]
  · intro h
    have h' : ¬ days ≤ 0 := not_le.mpr h
    rcases hs : st.GetAlertsByDays days with ⟨alerts, _ | e⟩ <;>
      simp [AlertService.GetAlertsByDays, h', hs]

/-- Witness of C13: `days = -5` is refused without a storage call, `days = 7`
reaches the storage. -/
theorem C13_days_checked_before_storage_witness :
    ((-5 : Int) ≤ 0 ∧ (0 : Int) < 7) ∧
      AlertService.GetAlertsByDays stSample (-5) =
        ((none, some (.errorString "service: days must be greater than 0")), []) ∧
      (AlertService.GetAlertsByDays stSample 7).2 = [.storageGetAlertsByDays 7] :=
  ⟨⟨by decide, by decide⟩,
    ((C13_days_checked_before_storage stSample (-5)).1 (by decide)).1,
    (C13_days_checked_before_storage stSample 7).2 (by decide)⟩

/-- C20: the read operations of the service are transparent.  When the storage
call succeeds, `GetAlerts`, `GetAlertByID` and `GetAlertsByDays` (for
`days > 0`) return the storage result itself with a nil error; when it fails
with `e` they return a nil result and an error that wraps `e`, with the
messages "service: error getting alerts: ", "service: error getting alert: "
and "service: error getting alerts by days: " followed by the text of `e`. -/
theorem C20_service_reads_transparent (st : Storage) (id : String) (days : Int)
    (hd : 0 < days) :
    (∀ alerts, st.GetAlerts = (alerts, none) →
        (AlertService.GetAlerts st).1 = (alerts, none)) ∧
      (∀ alerts e, st.GetAlerts = (alerts, some e) →
        (AlertService.GetAlerts st).1 =
          (none, some (.wrapError ("service: error getting alerts: " ++ e.Error) e))) ∧
      (∀ alert, st.GetAlertByID id = (alert, none) →
        (AlertService.GetAlertByID st id).1 = (alert, none)) ∧
      (∀ alert e, st.GetAlertByID id = (alert, some e) →
        (AlertService.GetAlertByID st id).1 =
          (none, some (.wrapError ("service: error getting alert: " ++ e.Error) e))) ∧
      (∀ alerts, st.GetAlertsByDays days = (alerts, none) →
        (AlertService.GetAlertsByDays st days).1 = (alerts, none)) ∧
      (∀ alerts e, st.GetAlertsByDays days = (alerts, some e) →
        (AlertService.GetAlertsByDays st days).1 =
          (none, some (.wrapError ("service: error getting alerts by days: " ++ e.Error) e))) := by
  have h' : ¬ days ≤ 0 := not_le.mpr hd
  refine ⟨?_, ?_, ?_, ?_, ?_, ?_⟩
  · intro alerts h
    simp [AlertService.GetAlerts, h]
  · intro alerts e h
    simp [AlertService.GetAlerts, h, Errorf]
  · intro alert h
    simp [AlertService.GetAlertByID, h]
  · intro alert e h
    simp [AlertService.GetAlertByID, h, Errorf]
  · intro alerts h
    simp [AlertService.GetAlertsByDays, h, h']
  · intro alerts e h
    simp [AlertService.GetAlertsByDays, h, h', Errorf]

/-- Witness of C20: on `stFailing` the service wraps "database error", on
`stSample` it hands the stored alerts through. -/
theorem C20_service_reads_transparent_witness :
    (0 : Int) < 7 ∧
      (AlertService.GetAlerts stFailing).1 =
        (none, some (.wrapError "service: error getting alerts: database error"
          (.errorString "database error"))) ∧
      (AlertService.GetAlerts stSample).1 = (some sampleStored, none) :=
  ⟨by decide,
    (C20_service_reads_transparent stFailing "1" 7 (by decide)).2.1 none
      (.errorString "database error") rfl,
    (C20_service_reads_transparent stSample "1" 7 (by decide)).1 (some sampleStored) rfl⟩

/-- C14: on `GET /alerts` with only a `days` parameter: when the value does
not parse as an integer or parses to a value `<= 0`, the handler answers 400
with "Invalid 'days' parameter. Must be a positive integer" and calls neither
the service nor the storage; when it parses to a positive `n`, the handler
calls the service with `n`, and the service the storage with `n`. -/
theorem C14_days_param_checked_by_handler (st : Storage) (r : Request)
    (hm : r.Method = "GET") (hid : r.Get "id" = "") (hdays : r.Get "days" ≠ "") :
    (((Atoi (r.Get "days")).2 ≠ none ∨ (Atoi (r.Get "days")).1 ≤ 0) →
        AlertHandler.GetAlerts st r =
          (⟨400, .ErrorResponse "Invalid 'days' parameter. Must be a positive integer"⟩, [])) ∧
      (∀ n, Atoi (r.Get "days") = (n, none) → 0 < n →
        (AlertHandler.GetAlerts st r).2 =
          [.serviceGetAlertsByDays n, .storageGetAlertsByDays n]) := by
  have hd : AlertHandler.GetAlerts st r = AlertHandler.getAlertsByDays st (r.Get "days") := by
    simp [AlertHandler.GetAlerts, hm, hid, hdays]
  rw [hd]
  constructor
  · intro h
    rcases ha : Atoi (r.Get "days") with ⟨n, _ | e⟩
    · rw [ha] at h
      have hn : n ≤ 0 := by simpa using h
      simp [AlertHandler.getAlertsByDays, ha, hn, writeError, writeJSON]
    · simp [AlertHandler.getAlertsByDays, ha, writeError, writeJSON]
  · intro n ha hn
    have hn' : ¬ n ≤ 0 := not_le.mpr hn
    rcases hs : st.GetAlertsByDays n with ⟨alerts, _ | e⟩ <;>
      simp [AlertHandler.getAlertsByDays, ha, AlertService.GetAlertsByDays, hn', hs]

/-- Witness of C14: `days=abc` and `days=-3` are refused with 400 and no call,
`days=7` reaches the service and the storage with 7. -/
theorem C14_days_param_checked_by_handler_witness :
    (AlertHandler.GetAlerts stSample ⟨"GET", [("days", "abc")]⟩ =
        (⟨400, .ErrorResponse "Invalid 'days' parameter. Must be a positive integer"⟩, [])) ∧
      (AlertHandler.GetAlerts stSample ⟨"GET", [("days", "-3")]⟩ =
        (⟨400, .ErrorResponse "Invalid 'days' parameter. Must be a positive integer"⟩, [])) ∧
      (AlertHandler.GetAlerts stSample ⟨"GET", [("days", "7")]⟩).2 =
        [.serviceGetAlertsByDays 7, .storageGetAlertsByDays 7] :=
  ⟨(C14_days_param_checked_by_handler stSample ⟨"GET", [("days", "abc")]⟩ rfl (by decide)
      (by decide)).1 (Or.inl (by decide)),
    (C14_days_param_checked_by_handler stSample ⟨"GET", [("days", "-3")]⟩ rfl (by decide)
      (by decide)).1 (Or.inr (by decide)),
    (C14_days_param_checked_by_handler stSample ⟨"GET", [("days", "7")]⟩ rfl (by decide)
      (by decide)).2 7 (by decide) (by decide)⟩

/-- C15: on `GET /alerts`: when both `id` and `days` are non-empty the handler
answers 400 with "Cannot specify both 'id' and 'days' parameters at the same
time" and makes no call; when only `id` is non-empty it answers as the id
path, when only `days` is non-empty as the days path, and when both are empty
as the all-alerts path, which answers 200 with the stored alerts when the
storage succeeds. -/
theorem C15_id_and_days_exclusive (st : Storage) (r : Request) (hm : r.Method = "GET") :
    (r.Get "id" ≠ "" → r.Get "days" ≠ "" →
        AlertHandler.GetAlerts st r =
          (⟨400, .ErrorResponse
            "Cannot specify both 'id' and 'days' parameters at the same time"⟩, [])) ∧
      (r.Get "id" ≠ "" → r.Get "days" = "" →
        AlertHandler.GetAlerts st r = AlertHandler.getAlertByID st (r.Get "id")) ∧
      (r.Get "id" = "" → r.Get "days" ≠ "" →
        AlertHandler.GetAlerts st r = AlertHandler.getAlertsByDays st (r.Get "days")) ∧
      (r.Get "id" = "" → r.Get "days" = "" →
        AlertHandler.GetAlerts st r = AlertHandler.getAllAlerts st ∧
          ∀ alerts, st.GetAlerts = (alerts, none) →
            (AlertHandler.GetAlerts st r).1 = ⟨200, .AlertsResponse alerts⟩) := by
  refine ⟨?_, ?_, ?_, ?_⟩
  · intro h1 h2
    simp [AlertHandler.GetAlerts, hm, h1, h2, writeError, writeJSON]
  · intro h1 h2
    simp [AlertHandler.GetAlerts, hm, h1, h2]
  · intro h1 h2
    simp [AlertHandler.GetAlerts, hm, h1, h2]
  · intro h1 h2
    have h : AlertHandler.GetAlerts st r = AlertHandler.getAllAlerts st := by
      simp [AlertHandler.GetAlerts, hm, h1, h2]
    refine ⟨h, ?_⟩
    intro alerts ha
    rw [h]
    simp [AlertHandler.getAllAlerts, AlertService.GetAlerts, ha, writeJSON]

/-- Witness of C15: `GET /alerts?id=1&days=3` is answered 400 without any
call. -/
theorem C15_id_and_days_exclusive_witness :
    ((⟨"GET", [("id", "1"), ("days", "3")]⟩ : Request).Method = "GET" ∧
        (⟨"GET", [("id", "1"), ("days", "3")]⟩ : Request).Get "id" ≠ "" ∧
        (⟨"GET", [("id", "1"), ("days", "3")]⟩ : Request).Get "days" ≠ "") ∧
      AlertHandler.GetAlerts stSample ⟨"GET", [("id", "1"), ("days", "3")]⟩ =
        (⟨400, .ErrorResponse
          "Cannot specify both 'id' and 'days' parameters at the same time"⟩, []) :=
  ⟨⟨rfl, by decide, by decide⟩,
    (C15_id_and_days_exclusive stSample ⟨"GET", [("id", "1"), ("days", "3")]⟩ rfl).1
      (by decide) (by decide)⟩

/-! ## The storage over the table -/

theorem Time.le_refl (a : Time) : a.le a := Or.inr ⟨rfl, Nat.le_refl _⟩

theorem Time.le_trans {a b c : Time} (h1 : a.le b) (h2 : b.le c) : a.le c := by
  unfold Time.le at *
  omega

theorem Time.le_of_not_le {a b : Time} (h : ¬ a.le b) : b.le a := by
  unfold Time.le at *
  omega

theorem maxCreatedAt_eq_none {l : List Alert} : maxCreatedAt l = none ↔ l = [] := by
  cases l with
  | nil => simp [maxCreatedAt]
  | cons a rest =>
    simp only [maxCreatedAt]
    rcases maxCreatedAt rest with _ | t
    · simp
    · by_cases h : t.le a.CreatedAt <;> simp [h]

/-- The aggregate is the creation time of some row and no row is newer. -/
theorem maxCreatedAt_spec (l : List Alert) (t : Time) (h : maxCreatedAt l = some t) :
    (∃ a ∈ l, a.CreatedAt = t) ∧ ∀ a ∈ l, a.CreatedAt.le t := by
  induction l generalizing t with
  | nil => simp [maxCreatedAt] at h
  | cons a rest ih =>
    simp only [maxCreatedAt] at h
    rcases hm : maxCreatedAt rest with _ | m
    · rw [hm] at h
      have hr : rest = [] := maxCreatedAt_eq_none.mp hm
      subst hr
      simp only [Option.some.injEq] at h
      subst h
      exact ⟨⟨a, by simp, rfl⟩, by simp [Time.le_refl]⟩
    · rw [hm] at h
      obtain ⟨⟨b, hb, hbt⟩, hall⟩ := ih m hm
      by_cases hle : m.le a.CreatedAt
      · simp only [hle, if_true, Option.some.injEq] at h
        subst h
        refine ⟨⟨a, by simp, rfl⟩, ?_⟩
        intro x hx
        rcases List.mem_cons.mp hx with rfl | hx
        · exact Time.le_refl _
        · exact Time.le_trans (hall x hx) hle
      · simp only [hle, if_false, Option.some.injEq] at h
        subst h
        refine ⟨⟨b, by simp [hb], hbt⟩, ?_⟩
        intro x hx
        rcases List.mem_cons.mp hx with rfl | hx
        · exact Time.le_of_not_le hle
        · exact hall x hx

theorem GetLastSyncTime_ok (db : DB) :
    AlertStorage.GetLastSyncTime db none =
      ((maxCreatedAt db.alerts).getD Time.zero, none) := by
  simp only [AlertStorage.GetLastSyncTime, DB.scanMaxCreatedAt]
  rcases maxCreatedAt db.alerts with _ | t <;> rfl

/-- C11: `GetLastSyncTime` returns, with no error, a greatest `created_at` of
the persisted alerts when there is at least one and the zero timestamp when
there is none (the aggregate is NULL); it returns an error exactly when the
query itself fails, and then with the zero timestamp. -/
theorem C11_last_sync_time_is_max_created_at (db : DB) (fail : Option GoError) :
    (fail = none → db.alerts ≠ [] →
        ∃ t, AlertStorage.GetLastSyncTime db fail = (t, none) ∧
          (∃ a ∈ db.alerts, a.CreatedAt = t) ∧ ∀ a ∈ db.alerts, a.CreatedAt.le t) ∧
      (fail = none → db.alerts = [] →
        AlertStorage.GetLastSyncTime db fail = (Time.zero, none)) ∧
      ((AlertStorage.GetLastSyncTime db fail).2 ≠ none ↔ fail ≠ none) ∧
      (∀ e, fail = some e →
        AlertStorage.GetLastSyncTime db fail =
          (Time.zero, some (.wrapError ("error querying last sync time: " ++ e.Error) e))) := by
  refine ⟨?_, ?_, ?_, ?_⟩
  · intro hf hne
    subst hf
    rcases hm : maxCreatedAt db.alerts with _ | t
    · exact absurd (maxCreatedAt_eq_none.mp hm) hne
    · refine ⟨t, ?_, maxCreatedAt_spec db.alerts t hm⟩
      rw [GetLastSyncTime_ok, hm]
      rfl
  · intro hf he
    subst hf
    rw [GetLastSyncTime_ok, he]
    rfl
  · rcases fail with _ | e
    · simp [GetLastSyncTime_ok]
    · simp [AlertStorage.GetLastSyncTime, DB.scanMaxCreatedAt]
  · intro e he
    subst he
    rfl

/-- Witness of C11: over the two sample alerts the newest creation time is
returned, over the empty table the zero time. -/
theorem C11_last_sync_time_is_max_created_at_witness :
    ((none : Option GoError) = none ∧ dbSample.alerts ≠ [] ∧ dbEmpty.alerts = []) ∧
      (∃ t, AlertStorage.GetLastSyncTime dbSample none = (t, none) ∧
        (∃ a ∈ dbSample.alerts, a.CreatedAt = t) ∧ ∀ a ∈ dbSample.alerts, a.CreatedAt.le t) ∧
      AlertStorage.GetLastSyncTime dbEmpty none = (Time.zero, none) :=
  ⟨⟨rfl, by decide, rfl⟩,
    (C11_last_sync_time_is_max_created_at dbSample none).1 rfl (by decide),
    (C11_last_sync_time_is_max_created_at dbEmpty none).2.1 rfl rfl⟩

/-- C16: when the query runs (no driver error): for an id that no persisted
alert has, storage `GetAlertByID` returns a nil alert and the error "alert not
found", the service returns a nil alert and an error, and `GET /alerts?id=<id>`
(a non-empty id) is answered 404 with "Alert not found"; for an id that a
persisted alert `a` has, the storage returns `a` and the request is answered
200 with `a`. -/
theorem C16_unknown_id_is_not_found (db : DB) (st : Storage) (id : String) (hid : id ≠ "") :
    ((∀ a ∈ db.alerts, a.ID ≠ id) →
        AlertStorage.GetAlertByID db none id = (none, some (.errorString "alert not found")) ∧
          (AlertService.GetAlertByID
              { st with GetAlertByID := AlertStorage.GetAlertByID db none } id).1 =
            (none, some (.wrapError "service: error getting alert: alert not found"
              (.errorString "alert not found"))) ∧
          (AlertHandler.GetAlerts { st with GetAlertByID := AlertStorage.GetAlertByID db none }
              ⟨"GET", [("id", id)]⟩).1 = ⟨404, .ErrorResponse "Alert not found"⟩) ∧
      (∀ a, db.alerts.find? (fun a => a.ID == id) = some a →
        AlertStorage.GetAlertByID db none id = (some a, none) ∧
          (AlertHandler.GetAlerts { st with GetAlertByID := AlertStorage.GetAlertByID db none }
              ⟨"GET", [("id", id)]⟩).1 = ⟨200, .SingleAlertResponse (some a)⟩) := by
  have hget : (⟨"GET", [("id", id)]⟩ : Request).Get "id" = id := by
    simp [Request.Get]
  have hdays : (⟨"GET", [("id", id)]⟩ : Request).Get "days" = "" := by
    simp [Request.Get]
  have hpath : ∀ s : Storage, AlertHandler.GetAlerts s ⟨"GET", [("id", id)]⟩ =
      AlertHandler.getAlertByID s id := by
    intro s
    simp only [AlertHandler.GetAlerts, hget, hdays]
    simp [hid]
  constructor
  · intro hno
    have hfind : db.alerts.find? (fun a => a.ID == id) = none := by
      rw [List.find?_eq_none]
      intro a ha
      simpa using hno a ha
    have hs : AlertStorage.GetAlertByID db none id =
        (none, some (.errorString "alert not found")) := by
      simp [AlertStorage.GetAlertByID, DB.scanRowByID, hfind]
    refine ⟨hs, ?_, ?_⟩
    · simp only [AlertService.GetAlertByID, hs]
      rfl
    · rw [hpath]
      simp only [AlertHandler.getAlertByID, AlertService.GetAlertByID, hs]
      rfl
  · intro a hfind
    have hs : AlertStorage.GetAlertByID db none id = (some a, none) := by
      simp [AlertStorage.GetAlertByID, DB.scanRowByID, hfind]
    refine ⟨hs, ?_⟩
    rw [hpath]
    simp only [AlertHandler.getAlertByID, AlertService.GetAlertByID, hs]
    rfl

/-- Witness of C16: over the two sample alerts, `GET /alerts?id=999` is
answered 404 "Alert not found". -/
theorem C16_unknown_id_is_not_found_witness :
    ("999" ≠ "" ∧ ∀ a ∈ dbSample.alerts, a.ID ≠ "999") ∧
      (AlertHandler.GetAlerts
          { stSample with GetAlertByID := AlertStorage.GetAlertByID dbSample none }
          ⟨"GET", [("id", "999")]⟩).1 = ⟨404, .ErrorResponse "Alert not found"⟩ :=
  ⟨⟨by decide, by decide⟩,
    ((C16_unknown_id_is_not_found dbSample stSample "999" (by decide)).1 (by decide)).2.2⟩

/-! ## The watermark across two passes -/

theorem storeCalls_alerts (fails : Nat → Option GoError) (calls : List CreateAlertArgs) :
    ∀ (n : Nat) (db : DB), ∃ new, (storeCalls fails calls n db).alerts = db.alerts ++ new := by
  induction calls with
  | nil => intro n db; exact ⟨[], by simp [storeCalls]⟩
  | cons a rest ih =>
    intro n db
    obtain ⟨new, hnew⟩ := ih (n + 1) (AlertStorage.CreateAlert db (fails n) a).1
    simp only [storeCalls, hnew]
    rcases hf : fails n with _ | e
    · exact ⟨⟨db.newID db.alerts.length, a.source, a.severity, a.description, a.wholeEvent,
        some a.enrichmentType, some a.ipAddress, a.createdAt⟩ :: new,
        by simp [AlertStorage.CreateAlert, DB.execInsert]⟩
    · exact ⟨new, by simp [AlertStorage.CreateAlert, DB.execInsert]⟩

theorem tableAfterPass_alerts (env : Env) (db : DB) (qfail : Option GoError)
    (fails : Nat → Option GoError) :
    (tableAfterPass env db qfail fails).alerts =
      db.alerts ++ persistedByPass env db qfail fails := by
  obtain ⟨new, hnew⟩ := storeCalls_alerts fails
    (createCallsOf (PerformSync (env.onStorage db qfail fails) World.init).2.trace) 0 db
  unfold persistedByPass tableAfterPass
  rw [hnew]
  simp

/-- C12, as stated, fails.  The table holds one alert, created at
63900003600 s.  In the pass the watermark read fails, so the full history is
fetched (that record, then an older one created at 63900000000 s); the INSERT
of the first fails and the older record is persisted (N = 1).  The cursor of
the next pass is the creation time of the alert that was there before, not the
newest creation time among the records this pass persisted. -/
theorem C12_counterexample_older_record_persisted :
    (persistedByPass envRefetch dbOneNewer (some (.errorString "db down")) failFirst).length
        = 1 ∧
      maxCreatedAt (persistedByPass envRefetch dbOneNewer (some (.errorString "db down"))
        failFirst) = some ⟨63900000000, 0, 0⟩ ∧
      AlertStorage.GetLastSyncTime
          (tableAfterPass envRefetch dbOneNewer (some (.errorString "db down")) failFirst)
          none = (⟨63900003600, 5, 0⟩, none) ∧
      fetchCallsOf (PerformSync (envFirst.onStorage
          (tableAfterPass envRefetch dbOneNewer (some (.errorString "db down")) failFirst)
          none (fun _ => none)) World.init).2.trace =
        [.FetchAlertsSince ⟨63900003600, 5, 0⟩] ∧
      ¬ (⟨63900003600, 5, 0⟩ : Time).le ⟨63900000000, 0, 0⟩ := by
  decide

/-- C12, amended: after a pass that persists `N >= 1` records, the cursor of
the next pass (what `GetLastSyncTime` yields when its query runs) is a newest
`created_at` among all persisted alerts, those persisted before the pass and
those `N`; it is the instant of the newest of those `N` when no alert persisted
before is newer than all of them; and `PerformSync` hands it to
`FetchAlertsSince` unless it is the zero time. -/
theorem C12_next_cursor_is_newest_persisted (env env2 : Env) (db : DB)
    (qfail : Option GoError) (fails fails2 : Nat → Option GoError)
    (hN : persistedByPass env db qfail fails ≠ []) :
    ∃ c, AlertStorage.GetLastSyncTime (tableAfterPass env db qfail fails) none = (c, none) ∧
      (∃ a ∈ db.alerts ++ persistedByPass env db qfail fails, a.CreatedAt = c) ∧
      (∀ a ∈ db.alerts ++ persistedByPass env db qfail fails, a.CreatedAt.le c) ∧
      ((∀ o ∈ db.alerts, ∃ p ∈ persistedByPass env db qfail fails,
          o.CreatedAt.le p.CreatedAt) →
        (∀ p ∈ persistedByPass env db qfail fails, p.CreatedAt.le c) ∧
          ∃ p ∈ persistedByPass env db qfail fails, c.le p.CreatedAt) ∧
      fetchCallsOf (PerformSync
          (env2.onStorage (tableAfterPass env db qfail fails) none fails2)
          World.init).2.trace =
        [if c.IsZero then .FetchAllAlerts else .FetchAlertsSince c] := by
  have halerts := tableAfterPass_alerts env db qfail fails
  have hne : (tableAfterPass env db qfail fails).alerts ≠ [] := by
    rw [halerts]
    simp [hN]
  rcases hm : maxCreatedAt (tableAfterPass env db qfail fails).alerts with _ | c
  · exact absurd (maxCreatedAt_eq_none.mp hm) hne
  · have hget : AlertStorage.GetLastSyncTime (tableAfterPass env db qfail fails) none =
        (c, none) := by
      rw [GetLastSyncTime_ok, hm]
      rfl
    obtain ⟨hex, hall⟩ := maxCreatedAt_spec _ c hm
    rw [halerts] at hex hall
    refine ⟨c, hget, hex, hall, ?_, ?_⟩
    · intro hold
      refine ⟨fun p hp => hall p (List.mem_append_right _ hp), ?_⟩
      obtain ⟨a, ha, hac⟩ := hex
      rcases List.mem_append.mp ha with h | h
      · obtain ⟨p, hp, hle⟩ := hold a h
        exact ⟨p, hp, hac ▸ hle⟩
      · exact ⟨a, h, hac ▸ Time.le_refl _⟩
    · rw [pass_fetchCalls]
      simp [fetchCallOf, cursorOf, Env.onStorage, hget]

/-- Witness of C12 amended: a first sync over the empty table persists the two
sample records, and the next pass fetches since the newer of the two. -/
theorem C12_next_cursor_is_newest_persisted_witness :
    persistedByPass envFirst dbEmpty none (fun _ => none) ≠ [] ∧
      ∃ c, AlertStorage.GetLastSyncTime
          (tableAfterPass envFirst dbEmpty none (fun _ => none)) none = (c, none) ∧
        (∃ a ∈ dbEmpty.alerts ++ persistedByPass envFirst dbEmpty none (fun _ => none),
          a.CreatedAt = c) ∧
        (∀ a ∈ dbEmpty.alerts ++ persistedByPass envFirst dbEmpty none (fun _ => none),
          a.CreatedAt.le c) ∧
        ((∀ o ∈ dbEmpty.alerts, ∃ p ∈ persistedByPass envFirst dbEmpty none (fun _ => none),
            o.CreatedAt.le p.CreatedAt) →
          (∀ p ∈ persistedByPass envFirst dbEmpty none (fun _ => none), p.CreatedAt.le c) ∧
            ∃ p ∈ persistedByPass envFirst dbEmpty none (fun _ => none),
              c.le p.CreatedAt) ∧
        fetchCallsOf (PerformSync
            (envIncremental.onStorage (tableAfterPass envFirst dbEmpty none (fun _ => none))
              none (fun _ => none))
            World.init).2.trace =
          [if c.IsZero then .FetchAllAlerts else .FetchAlertsSince c] :=
  ⟨by decide,
    C12_next_cursor_is_newest_persisted envFirst envIncremental dbEmpty none (fun _ => none)
      (fun _ => none) (by decide)⟩

/-! ## The fetch client and the configuration -/

/-- C17: the retry decision.  When the context is cancelled or past its
deadline, `CheckRetry` says not to retry and returns the context error,
whatever the response and the transport error; otherwise it says to retry
(with no error) on any transport error, on any status `>= 500` and on status
429, and says not to retry (with no error) on every other status, so on every
4xx other than 429. -/
theorem C17_check_retry_decision (ctxErr : Option GoError) (resp : Option HttpResponse)
    (err : Option GoError) :
    (∀ ce, ctxErr = some ce → CheckRetry ctxErr resp err = some (false, some ce)) ∧
      (ctxErr = none → ∀ e, err = some e → CheckRetry ctxErr resp err = some (true, none)) ∧
      (ctxErr = none → err = none → ∀ r, resp = some r →
        ((r.StatusCode ≥ 500 ∨ r.StatusCode = 429) →
            CheckRetry ctxErr resp err = some (true, none)) ∧
          (¬ (r.StatusCode ≥ 500 ∨ r.StatusCode = 429) →
            CheckRetry ctxErr resp err = some (false, none)) ∧
          (400 ≤ r.StatusCode → r.StatusCode < 500 → r.StatusCode ≠ 429 →
            CheckRetry ctxErr resp err = some (false, none))) := by
  refine ⟨?_, ?_, ?_⟩
  · intro ce h
    subst h
    rfl
  · intro h e he
    subst h he
    rfl
  · intro h he r hr
    subst h he hr
    refine ⟨?_, ?_, ?_⟩
    · rintro (h5 | h4)
      · simp [CheckRetry, h5]
      · simp [CheckRetry, h4]
    · intro hn
      have h5 : ¬ r.StatusCode ≥ 500 := fun h => hn (Or.inl h)
      have h4 : ¬ r.StatusCode = 429 := fun h => hn (Or.inr h)
      simp only [CheckRetry, h5, h4, if_false]
    · intro _ hlt hne
      have h5 : ¬ r.StatusCode ≥ 500 := not_le.mpr hlt
      simp only [CheckRetry, h5, hne, if_false]

/-- Witness of C17: a cancelled context wins over a 503, a 503 and a 429 are
retried, a 404 is not. -/
theorem C17_check_retry_decision_witness :
    CheckRetry (some .Canceled) (some ⟨503, none⟩) none = some (false, some .Canceled) ∧
      CheckRetry none none (some (.errorString "connection refused")) = some (true, none) ∧
      CheckRetry none (some ⟨503, none⟩) none = some (true, none) ∧
      CheckRetry none (some ⟨429, none⟩) none = some (true, none) ∧
      CheckRetry none (some ⟨404, none⟩) none = some (false, none) :=
  ⟨(C17_check_retry_decision (some .Canceled) (some ⟨503, none⟩) none).1 .Canceled rfl,
    (C17_check_retry_decision none none (some (.errorString "connection refused"))).2.1 rfl
      _ rfl,
    ((C17_check_retry_decision none (some ⟨503, none⟩) none).2.2 rfl rfl ⟨503, none⟩ rfl).1
      (Or.inl (by decide)),
    ((C17_check_retry_decision none (some ⟨429, none⟩) none).2.2 rfl rfl ⟨429, none⟩ rfl).1
      (Or.inr (by decide)),
    ((C17_check_retry_decision none (some ⟨404, none⟩) none).2.2 rfl rfl ⟨404, none⟩ rfl).2.2
      (by decide) (by decide) (by decide)⟩

theorem exponentialWait_bounds (min max : Int) (n : Nat) (hmin : 0 < min) (hmax : min ≤ max) :
    min ≤ exponentialWait min max n ∧ exponentialWait min max n ≤ max := by
  have hp : (1 : Int) ≤ 2 ^ n := by
    have : (0 : Int) < 2 ^ n := by positivity
    omega
  have hge : min ≤ 2 ^ n * min := by nlinarith
  unfold exponentialWait
  split
  · exact ⟨hmax, le_refl _⟩
  · exact ⟨hge, by omega⟩

/-- A wait of `DefaultBackoff` is within the configured bounds, or it is the
`Retry-After` delay of a response with status 429 or 503. -/
theorem DefaultBackoff_cases (min max : Int) (n : Nat) (resp : Option HttpResponse)
    (hmin : 0 < min) (hmax : min ≤ max) :
    (min ≤ DefaultBackoff min max n resp ∧ DefaultBackoff min max n resp ≤ max) ∨
      ∃ r, resp = some r ∧ (r.StatusCode = 429 ∨ r.StatusCode = 503) ∧
        r.RetryAfter = some (DefaultBackoff min max n resp) := by
  rcases resp with _ | r
  · exact Or.inl (exponentialWait_bounds min max n hmin hmax)
  · by_cases hs : r.StatusCode = 429 ∨ r.StatusCode = 503
    · rcases hr : r.RetryAfter with _ | sleep
      · left
        simp only [DefaultBackoff, hs, if_true, hr]
        exact exponentialWait_bounds min max n hmin hmax
      · right
        exact ⟨r, rfl, hs, by simp only [DefaultBackoff, hs, if_true, hr]⟩
    · left
      simp only [DefaultBackoff, hs, if_false]
      exact exponentialWait_bounds min max n hmin hmax

/-- With enough fuel the attempt loop ends by itself, after at most
`RetryMax - i + 1` attempts from round `i` on (one when that is less), with one
wait between consecutive attempts; the wait after attempt `i + j` is within the
configured bounds or is the `Retry-After` delay of the 429 or 503 response of
that attempt. -/
theorem retryLoop_spec (c : RetryClient) (att : Nat → Attempt) (hmin : 0 < c.RetryWaitMin)
    (hmax : c.RetryWaitMin ≤ c.RetryWaitMax) :
    ∀ (fuel i : Nat), 1 ≤ fuel → c.RetryMax - (i : Int) < fuel →
      retryLoop c att fuel i ≠ .outOfFuel ∧
        ∀ t, retryLoop c att fuel i = .finished t →
          (t.attempts : Int) ≤ max 1 (c.RetryMax - (i : Int) + 1) ∧
            t.waits.length + 1 = t.attempts ∧
            ∀ j w, t.waits[j]? = some w →
              (c.RetryWaitMin ≤ w ∧ w ≤ c.RetryWaitMax) ∨
                ∃ r, (att (i + j)).resp = some r ∧
                  (r.StatusCode = 429 ∨ r.StatusCode = 503) ∧ r.RetryAfter = some w := by
  intro fuel
  induction fuel with
  | zero => intro i h; omega
  | succ fuel ih =>
    intro i _ hlt
    simp only [retryLoop]
    rcases CheckRetry (att i).ctxErr (att i).resp (att i).err with _ | ⟨shouldRetry, cerr⟩
    · exact ⟨by simp, by simp⟩
    · cases shouldRetry with
      | false =>
        refine ⟨by simp, ?_⟩
        intro t ht
        simp only [Bool.not_false, if_true, DoResult.finished.injEq] at ht
        subst ht
        exact ⟨by simp, rfl, by simp⟩
      | true =>
        simp only [Bool.not_true, Bool.false_eq_true, if_false]
        by_cases hrem : c.RetryMax - (i : Int) ≤ 0
        · simp only [hrem, if_true]
          refine ⟨by simp, ?_⟩
          intro t ht
          simp only [DoResult.finished.injEq] at ht
          subst ht
          exact ⟨by simp, rfl, by simp⟩
        · simp only [hrem, if_false]
          cases hd : (att i).doneInWait with
          | true =>
            simp only [if_true]
            refine ⟨by simp, ?_⟩
            intro t ht
            simp only [DoResult.finished.injEq] at ht
            subst ht
            exact ⟨by simp, rfl, by simp⟩
          | false =>
            simp only [Bool.false_eq_true, if_false]
            have hf1 : 1 ≤ fuel := by omega
            have hf2 : c.RetryMax - ((i + 1 : Nat) : Int) < fuel := by push_cast; omega
            obtain ⟨hne, hfin⟩ := ih (i + 1) hf1 hf2
            rcases hr : retryLoop c att fuel (i + 1) with t1 | _ | _
            · refine ⟨by simp, ?_⟩
              intro t ht
              simp only [DoResult.finished.injEq] at ht
              subst ht
              obtain ⟨h1, h2, h3⟩ := hfin t1 hr
              refine ⟨?_, by simp [h2], ?_⟩
              · push_cast at h1 ⊢
                omega
              · intro j w hw
                cases j with
                | zero =>
                  simp only [List.getElem?_cons_zero, Option.some.injEq] at hw
                  subst hw
                  exact DefaultBackoff_cases _ _ _ _ hmin hmax
                | succ j =>
                  simp only [List.getElem?_cons_succ] at hw
                  have := h3 j w hw
                  rwa [show i + 1 + j = i + (j + 1) by omega] at this
            · exact ⟨by simp, by simp⟩
            · exact absurd hr hne

/-- C18, as stated, fails in both of its parts: with an upstream that answers
429 with `Retry-After: 120` to every attempt, the client of `NewMockAPIClient`
makes 4 attempts (the first one and 3 retries), not at most 3, and waits 120
seconds between them, not at most 30; with an upstream that answers 500 to
every attempt it makes 4 attempts too, after waits of 1, 2 and 4 seconds. -/
theorem C18_counterexample_four_attempts_long_wait :
    retryLoop NewMockAPIClient alwaysRateLimited 4 0 =
        .finished ⟨4, [120 * Second, 120 * Second, 120 * Second]⟩ ∧
      ¬ (4 ≤ 3) ∧ ¬ (120 * Second ≤ 30 * Second) ∧
      retryLoop NewMockAPIClient alwaysServerError 4 0 =
        .finished ⟨4, [1 * Second, 2 * Second, 4 * Second]⟩ := by
  decide

/-- C18, amended: for every request issued by the fetch client at most 3
retries are made, so at most 4 attempts in total, with one wait between
consecutive attempts; the wait after an attempt is between 1 second and 30
seconds, unless the attempt was answered 429 or 503 with a `Retry-After` delay,
in which case the wait is that delay; so when no response carries such a delay
every wait is between 1 second and 30 seconds. -/
theorem C18_at_most_three_retries (att : Nat → Attempt) (fuel : Nat) (hfuel : 4 ≤ fuel) :
    retryLoop NewMockAPIClient att fuel 0 ≠ .outOfFuel ∧
      ∀ t, retryLoop NewMockAPIClient att fuel 0 = .finished t →
        t.attempts ≤ 4 ∧ t.waits.length + 1 = t.attempts ∧
          (∀ j w, t.waits[j]? = some w →
            (1 * Second ≤ w ∧ w ≤ 30 * Second) ∨
              ∃ r, (att j).resp = some r ∧ (r.StatusCode = 429 ∨ r.StatusCode = 503) ∧
                r.RetryAfter = some w) ∧
          ((∀ j r, (att j).resp = some r → r.RetryAfter = none) →
            ∀ w ∈ t.waits, 1 * Second ≤ w ∧ w ≤ 30 * Second) := by
  have h := retryLoop_spec NewMockAPIClient att (by decide) (by decide) fuel 0 (by omega)
    (by simp only [NewMockAPIClient]; push_cast; omega)
  refine ⟨h.1, ?_⟩
  intro t ht
  obtain ⟨h1, h2, h3⟩ := h.2 t ht
  have h3' : ∀ j w, t.waits[j]? = some w →
      (1 * Second ≤ w ∧ w ≤ 30 * Second) ∨
        ∃ r, (att j).resp = some r ∧ (r.StatusCode = 429 ∨ r.StatusCode = 503) ∧
          r.RetryAfter = some w := by
    intro j w hw
    have := h3 j w hw
    simpa [NewMockAPIClient] using this
  refine ⟨?_, h2, h3', ?_⟩
  · simp only [NewMockAPIClient] at h1
    omega
  · intro hno w hw
    obtain ⟨j, hj⟩ := List.getElem?_of_mem hw
    rcases h3' j w hj with hb | ⟨r, hr, -, hra⟩
    · exact hb
    · rw [hno j r hr] at hra
      cases hra

/-- Witness of C18 amended: against an upstream that always answers 429 with
`Retry-After: 120` the loop ends after 4 attempts, and each of its three waits
is the delay of the response before it. -/
theorem C18_at_most_three_retries_witness :
    (4 ≤ 4 ∧ retryLoop NewMockAPIClient alwaysRateLimited 4 0 =
        .finished ⟨4, [120 * Second, 120 * Second, 120 * Second]⟩) ∧
      ((⟨4, [120 * Second, 120 * Second, 120 * Second]⟩ : DoTrace).attempts ≤ 4 ∧
        (⟨4, [120 * Second, 120 * Second, 120 * Second]⟩ : DoTrace).waits.length + 1 =
          (⟨4, [120 * Second, 120 * Second, 120 * Second]⟩ : DoTrace).attempts ∧
        (∀ j w, (⟨4, [120 * Second, 120 * Second, 120 * Second]⟩ : DoTrace).waits[j]? =
            some w →
          (1 * Second ≤ w ∧ w ≤ 30 * Second) ∨
            ∃ r, (alwaysRateLimited j).resp = some r ∧
              (r.StatusCode = 429 ∨ r.StatusCode = 503) ∧ r.RetryAfter = some w) ∧
        ((∀ j r, (alwaysRateLimited j).resp = some r → r.RetryAfter = none) →
          ∀ w ∈ (⟨4, [120 * Second, 120 * Second, 120 * Second]⟩ : DoTrace).waits,
            1 * Second ≤ w ∧ w ≤ 30 * Second)) :=
  ⟨⟨le_refl 4, by decide⟩,
    (C18_at_most_three_retries alwaysRateLimited 4 (le_refl 4)).2 _ (by decide)⟩

/-- C19: `parseDuration` returns the parsed duration when `time.ParseDuration`
accepts the string and the default when it does not, and has no error result;
`LoadConfig` gives it the default 60 s, so an unset or empty `SYNC_INTERVAL`
(for which `getEnv` hands over "60s") and an invalid one both yield 60 s. -/
theorem C19_invalid_interval_falls_back (ParseDuration : String → Int × Option GoError)
    (Getenv : String → String) :
    (∀ value d dflt, ParseDuration value = (d, none) →
        parseDuration ParseDuration value dflt = d) ∧
      (∀ value d e dflt, ParseDuration value = (d, some e) →
        parseDuration ParseDuration value dflt = dflt) ∧
      (∀ d e, ParseDuration (getEnv Getenv "SYNC_INTERVAL" "60s") = (d, some e) →
        (LoadConfig Getenv ParseDuration).SyncInterval = 60 * Second) ∧
      (∀ d, ParseDuration (getEnv Getenv "SYNC_INTERVAL" "60s") = (d, none) →
        (LoadConfig Getenv ParseDuration).SyncInterval = d) ∧
      (Getenv "SYNC_INTERVAL" = "" → ParseDuration "60s" = (60 * Second, none) →
        (LoadConfig Getenv ParseDuration).SyncInterval = 60 * Second) := by
  refine ⟨?_, ?_, ?_, ?_, ?_⟩
  · intro value d dflt h
    simp [parseDuration, h]
  · intro value d e dflt h
    simp [parseDuration, h]
  · intro d e h
    simp [LoadConfig, parseDuration, h]
  · intro d h
    simp [LoadConfig, parseDuration, h]
  · intro hg hp
    have hv : getEnv Getenv "SYNC_INTERVAL" "60s" = "60s" := by simp [getEnv, hg]
    simp [LoadConfig, parseDuration, hv, hp]

/-- Witness of C19: an unset `SYNC_INTERVAL` and the invalid value "abc" both
give 60 s, the valid value "5m" gives 5 minutes. -/
theorem C19_invalid_interval_falls_back_witness :
    (LoadConfig (envWithInterval "") sampleParseDuration).SyncInterval = 60 * Second ∧
      (LoadConfig (envWithInterval "abc") sampleParseDuration).SyncInterval = 60 * Second ∧
      (LoadConfig (envWithInterval "5m") sampleParseDuration).SyncInterval = 300 * Second :=
  ⟨(C19_invalid_interval_falls_back sampleParseDuration (envWithInterval "")).2.2.2.2
      (by decide) (by decide),
    (C19_invalid_interval_falls_back sampleParseDuration (envWithInterval "abc")).2.2.1 0
      (.errorString "time: invalid duration") (by decide),
    (C19_invalid_interval_falls_back sampleParseDuration (envWithInterval "5m")).2.2.2.1
      (300 * Second) (by decide)⟩

/-! ## The raw-event blob and the id path -/

theorem callsFor_length (env : Env) (l : List ExternalAlert) :
    ∀ (n r : Nat), (callsFor env l n r).length = l.length := by
  induction l with
  | nil => intro n r; rfl
  | cons a rest ih => intro n r; simp [callsFor, ih]

theorem callsFor_getElem (env : Env) (l : List ExternalAlert) :
    ∀ (n r i : Nat) (a : ExternalAlert), l[i]? = some a →
      (callsFor env l n r)[i]? = some (argsOf env a (n + i) (r + 5 * i)) := by
  induction l with
  | nil => intro n r i a h; simp at h
  | cons b rest ih =>
    intro n r i a h
    cases i with
    | zero =>
      simp only [List.getElem?_cons_zero, Option.some.injEq] at h
      subst h
      simp [callsFor]
    | succ i =>
      simp only [List.getElem?_cons_succ] at h
      simp only [callsFor, List.getElem?_cons_succ]
      rw [ih (n + 1) (r + 5) i a h]
      congr 2 <;> omega

/-- The `CreateAlert` calls of the loop are those computed by `callsFor` for
the records it handles. -/
theorem processAlerts_createCalls (env : Env) (l : List ExternalAlert) :
    ∀ (sc : Nat) (w : World), ∃ m, m ≤ l.length ∧
      createCallsOf (processAlerts env l sc w).2.trace =
        createCallsOf w.trace ++ callsFor env (l.take m) w.nowCalls w.randCalls := by
  induction l with
  | nil => intro sc w; exact ⟨0, le_refl _, by simp [processAlerts, callsFor]⟩
  | cons a rest ih =>
    intro sc w
    rcases h : env.ctxErr w.ctxChecks with _ | e
    · obtain ⟨w1, heq, htr, -, -, hnow, hrand⟩ := processAlerts_cons_none env a rest sc w h
      rw [heq]
      obtain ⟨m, hm, hcalls⟩ := ih _ w1
      refine ⟨m + 1, by simpa using hm, ?_⟩
      rw [hcalls, htr, hnow, hrand, createCallsOf_append]
      simp [createCallsOf, callsFor]
    · rw [processAlerts_cons_some env a rest sc w e h]
      exact ⟨0, Nat.zero_le _, by simp [World.log, callsFor]⟩

theorem afterLoop_createCalls (env : Env) (n : Nat) (p : LoopExit × World) :
    createCallsOf (afterLoop env n p).2.trace = createCallsOf p.2.trace := by
  obtain ⟨ex, w⟩ := p
  cases ex with
  | ret e => rfl
  | panic => rfl
  | done sc =>
    simp only [afterLoop]
    rcases env.UpdateLastSyncTime (env.Now w.nowCalls) with _ | e <;>
      simp [World.log, World.call, createCallsOf_append, createCallsOf]

/-- The `CreateAlert` calls of a pass whose fetch succeeds with `l` are those
of `callsFor` for the first `m` records, from a clock and a generator not yet
read. -/
theorem pass_createCalls (env : Env) (l : List ExternalAlert)
    (h : env.answer (fetchCallOf env) = (l, none)) :
    ∃ m, m ≤ l.length ∧
      createCallsOf (PerformSync env World.init).2.trace = callsFor env (l.take m) 0 0 := by
  rw [PerformSync_unfold, h]
  obtain ⟨h1, -, -, h4, h5⟩ := afterFetch_sameCalls env
  by_cases hl : l.length = 0
  · simp only [if_pos hl]
    refine ⟨0, Nat.zero_le _, ?_⟩
    have : (((afterFetch env).log (.Fetched l.length)).log .NoNewAlerts).trace =
        openingCalls env := h1
    rw [this, createCallsOf_opening]
    simp [callsFor]
  · simp only [if_neg hl]
    obtain ⟨m, hm, hcalls⟩ :=
      processAlerts_createCalls env l 0 ((afterFetch env).log (.Fetched l.length))
    have t1 : ((afterFetch env).log (.Fetched l.length)).trace = openingCalls env := h1
    have t4 : ((afterFetch env).log (.Fetched l.length)).nowCalls = 0 := h4
    have t5 : ((afterFetch env).log (.Fetched l.length)).randCalls = 0 := h5
    rw [t1, t4, t5, createCallsOf_opening] at hcalls
    exact ⟨m, hm, by rw [afterLoop_createCalls, hcalls]; simp⟩

/-- C21: for every fetched record for which `CreateAlert` is called (all of
them when no check sees a cancellation), the call carries the record fields
unchanged, and its blob is what `json.Marshal` returns for the object with
exactly the keys source, severity, description, created_at (taken from the
record) and synced_at (the reading of the clock); when `json.Marshal` fails
the call is made all the same, with the placeholder blob made of an opening
and a closing brace. -/
theorem C21_blob_is_event_or_placeholder (env : Env) (c : Call) (l : List ExternalAlert)
    (hc : c ∈ fetchCallsOf (PerformSync env World.init).2.trace)
    (he : env.answer c = (l, none)) :
    ∃ m, m ≤ l.length ∧ (createCallsOf (PerformSync env World.init).2.trace).length = m ∧
      ((∀ k, k < l.length → env.ctxErr k = none) → m = l.length) ∧
      ∀ i a, i < m → l[i]? = some a →
        ∃ args, (createCallsOf (PerformSync env World.init).2.trace)[i]? = some args ∧
          args.key = a.key ∧
          (eventObject a (env.Now i)).map Prod.fst =
            ["source", "severity", "description", "created_at", "synced_at"] ∧
          (eventObject a (env.Now i)).take 4 =
            [("source", .str a.Source), ("severity", .str a.Severity),
             ("description", .str a.Description), ("created_at", .time a.CreatedAt)] ∧
          (∀ json, env.Marshal (eventObject a (env.Now i)) = (json, none) →
            args.wholeEvent = json) ∧
          (∀ json e, env.Marshal (eventObject a (env.Now i)) = (json, some e) →
            args.wholeEvent = "\x7b\x7d") := by
  rw [mem_fetchCalls env c hc] at he
  obtain ⟨m, hm, hcalls⟩ := pass_createCalls env l he
  have hlen : (createCallsOf (PerformSync env World.init).2.trace).length = m := by
    rw [hcalls, callsFor_length]
    simp [hm]
  refine ⟨m, hm, hlen, ?_, ?_⟩
  · intro hctx
    have hk := congrArg List.length (pass_never_cancelled env l he hctx).2
    simp only [List.length_map] at hk
    omega
  · intro i a hi ha
    have ht : (l.take m)[i]? = some a := by
      rw [List.getElem?_take]
      simp [hi, ha]
    have hget := callsFor_getElem env (l.take m) 0 0 i a ht
    rw [← hcalls] at hget
    refine ⟨_, hget, rfl, rfl, rfl, ?_, ?_⟩
    · intro json hj
      have hj' : env.Marshal (eventObject a (env.Now (0 + i))) = (json, none) := by
        simpa using hj
      simp only [argsOf, wholeEventOf]
      unfold eventObject at hj'
      rw [hj']
    · intro json e hj
      have hj' : env.Marshal (eventObject a (env.Now (0 + i))) = (json, some e) := by
        simpa using hj
      simp only [argsOf, wholeEventOf]
      unfold eventObject at hj'
      rw [hj']

/-- Witness of C21: in the pass of `envMarshalFails` the serialization of the
first record fails; `CreateAlert` is called for it with the placeholder blob,
and for the second record with the serialized object. -/
theorem C21_blob_is_event_or_placeholder_witness :
    (Call.FetchAllAlerts ∈ fetchCallsOf (PerformSync envMarshalFails World.init).2.trace ∧
        envMarshalFails.answer .FetchAllAlerts = (sampleAlerts, none)) ∧
      (createCallsOf (PerformSync envMarshalFails World.init).2.trace).map
          (fun args => (args.source, args.wholeEvent)) =
        [("ext1", "\x7b\x7d"), ("ext2", "json")] ∧
      ∃ m, m ≤ sampleAlerts.length ∧
        (createCallsOf (PerformSync envMarshalFails World.init).2.trace).length = m ∧
        ((∀ k, k < sampleAlerts.length → envMarshalFails.ctxErr k = none) →
          m = sampleAlerts.length) ∧
        ∀ i a, i < m → sampleAlerts[i]? = some a →
          ∃ args, (createCallsOf (PerformSync envMarshalFails World.init).2.trace)[i]? =
              some args ∧
            args.key = a.key ∧
            (eventObject a (envMarshalFails.Now i)).map Prod.fst =
              ["source", "severity", "description", "created_at", "synced_at"] ∧
            (eventObject a (envMarshalFails.Now i)).take 4 =
              [("source", .str a.Source), ("severity", .str a.Severity),
               ("description", .str a.Description), ("created_at", .time a.CreatedAt)] ∧
            (∀ json, envMarshalFails.Marshal (eventObject a (envMarshalFails.Now i)) =
                (json, none) → args.wholeEvent = json) ∧
            (∀ json e, envMarshalFails.Marshal (eventObject a (envMarshalFails.Now i)) =
                (json, some e) → args.wholeEvent = "\x7b\x7d") :=
  ⟨⟨by decide, rfl⟩, by decide,
    C21_blob_is_event_or_placeholder envMarshalFails .FetchAllAlerts sampleAlerts (by decide)
      rfl⟩

/-- C24: on the id path of `GET /alerts` every error of the lookup is answered
404 with "Alert not found" and the path never answers 500; so a failure of the
storage query that is not a missing row is answered exactly as an id that no
persisted alert has. -/
theorem C24_lookup_error_is_answered_not_found (st : Storage) (id : String) :
    (∀ e, (st.GetAlertByID id).2 = some e →
        AlertHandler.getAlertByID st id =
          (⟨404, .ErrorResponse "Alert not found"⟩,
            [.serviceGetAlertByID id, .storageGetAlertByID id])) ∧
      (AlertHandler.getAlertByID st id).1.status ≠ 500 ∧
      (∀ (db : DB) (e : GoError),
        (AlertHandler.getAlertByID
            { st with GetAlertByID := AlertStorage.GetAlertByID db (some e) } id).1 =
          ⟨404, .ErrorResponse "Alert not found"⟩) ∧
      (∀ (db db0 : DB) (e : GoError), (∀ a ∈ db0.alerts, a.ID ≠ id) →
        (AlertHandler.getAlertByID
            { st with GetAlertByID := AlertStorage.GetAlertByID db (some e) } id).1 =
          (AlertHandler.getAlertByID
            { st with GetAlertByID := AlertStorage.GetAlertByID db0 none } id).1) := by
  have herr : ∀ (s : Storage) (e : GoError), (s.GetAlertByID id).2 = some e →
      AlertHandler.getAlertByID s id =
        (⟨404, .ErrorResponse "Alert not found"⟩,
          [.serviceGetAlertByID id, .storageGetAlertByID id]) := by
    intro s e h
    rcases hs : s.GetAlertByID id with ⟨alert, err⟩
    rw [hs] at h
    simp only at h
    subst h
    simp [AlertHandler.getAlertByID, AlertService.GetAlertByID, hs, writeError, writeJSON]
  have hfail : ∀ (db : DB) (e : GoError),
      ∃ e1, (AlertStorage.GetAlertByID db (some e) id).2 = some e1 := by
    intro db e
    simp only [AlertStorage.GetAlertByID, DB.scanRowByID]
    split
    · exact ⟨_, rfl⟩
    · exact ⟨_, rfl⟩
  have h404 : ∀ (db : DB) (e : GoError),
      (AlertHandler.getAlertByID
          { st with GetAlertByID := AlertStorage.GetAlertByID db (some e) } id).1 =
        ⟨404, .ErrorResponse "Alert not found"⟩ := by
    intro db e
    obtain ⟨e1, he1⟩ := hfail db e
    rw [herr { st with GetAlertByID := AlertStorage.GetAlertByID db (some e) } e1 he1]
  refine ⟨herr st, ?_, h404, ?_⟩
  · rcases hs : st.GetAlertByID id with ⟨alert, _ | e⟩
    · simp [AlertHandler.getAlertByID, AlertService.GetAlertByID, hs, writeJSON]
    · rw [herr st e (by rw [hs])]
      simp
  · intro db db0 e hno
    rw [h404 db e]
    have hfind : db0.alerts.find? (fun a => a.ID == id) = none := by
      rw [List.find?_eq_none]
      intro a ha
      simpa using hno a ha
    have hs : (AlertStorage.GetAlertByID db0 none id).2 =
        some (.errorString "alert not found") := by
      simp [AlertStorage.GetAlertByID, DB.scanRowByID, hfind]
    rw [herr { st with GetAlertByID := AlertStorage.GetAlertByID db0 none } _ hs]

/-- Witness of C24: when the query for the stored id "1" fails with
"connection refused", the id path answers 404 "Alert not found". -/
theorem C24_lookup_error_is_answered_not_found_witness :
    ((stSample.GetAlertByID "999").2 = some (.errorString "alert not found") ∧
        ∀ a ∈ dbEmpty.alerts, a.ID ≠ "1") ∧
      AlertHandler.getAlertByID stSample "999" =
        (⟨404, .ErrorResponse "Alert not found"⟩,
          [.serviceGetAlertByID "999", .storageGetAlertByID "999"]) ∧
      (AlertHandler.getAlertByID
          { stSample with GetAlertByID :=
              AlertStorage.GetAlertByID dbSample (some (.errorString "connection refused")) }
          "1").1 =
        (AlertHandler.getAlertByID
          { stSample with GetAlertByID := AlertStorage.GetAlertByID dbEmpty none } "1").1 :=
  ⟨⟨by decide, by decide⟩,
    (C24_lookup_error_is_answered_not_found stSample "999").1
      (.errorString "alert not found") (by decide),
    (C24_lookup_error_is_answered_not_found stSample "1").2.2.2 dbSample dbEmpty
      (.errorString "connection refused") (by decide)⟩

/-! ## The cursor on the wire and the scheduler interval -/

/-- A whole-second UTC cursor reaches the upstream unchanged: the model of the
trip is not degenerate. -/
theorem sinceRequest_whole_second_utc :
    sinceRequest ⟨63900003600, 0, 0⟩ = some ⟨"GET", [("since", "2025-11-29T09:00:00Z")]⟩ ∧
      parseRFC3339 "2025-11-29T09:00:00Z" = some ⟨63900003600, 0, 0⟩ := by
  decide

/-- C22 does not hold of the code.  `FetchAlertsSince` formats the cursor with
`time.RFC3339`, which prints no fractional second, and puts it in the URL
unescaped.  For the watermark 2025-11-29T09:00:00.5Z the upstream reads
"2025-11-29T09:00:00Z": it parses, but to an earlier instant, and the
strictly-newer filter then returns the alert created at the watermark itself,
which a filter relative to the watermark does not.  For the same second in the
zone +01:00 the upstream reads "2025-11-29T10:00:00 01:00" (the plus sign is
decoded as a space), which does not parse, and it answers 500. -/
theorem C22_cursor_changed_on_the_wire :
    sinceRequest cursorHalfSecond = some ⟨"GET", [("since", "2025-11-29T09:00:00Z")]⟩ ∧
      parseRFC3339 "2025-11-29T09:00:00Z" = some ⟨63900003600, 0, 0⟩ ∧
      ¬ cursorHalfSecond.le ⟨63900003600, 0, 0⟩ ∧
      AlertsHandler.GetAlerts upstreamRows none false
          ⟨"GET", [("since", "2025-11-29T09:00:00Z")]⟩ =
        (200, .AlertsResponse upstreamRows) ∧
      AlertGenerator.GetAlertsSince upstreamRows none cursorHalfSecond = ([], none) ∧
      sinceRequest cursorEastern =
        some ⟨"GET", [("since", "2025-11-29T10:00:00 01:00")]⟩ ∧
      parseRFC3339 "2025-11-29T10:00:00 01:00" = none ∧
      AlertsHandler.GetAlerts upstreamRows none false
          ⟨"GET", [("since", "2025-11-29T10:00:00 01:00")]⟩ =
        (500, .ErrorResponse "Failed to fetch alerts") := by
  decide

theorem startPeriodicSync_eq_none (d : Int) : startPeriodicSync d = none ↔ d ≤ 0 := by
  unfold startPeriodicSync NewTicker
  split <;> simp [*]

/-- A duration that `time.ParseDuration` accepts is handed to the ticker as it
is, so a non-positive one makes `time.NewTicker` panic. -/
theorem LoadConfig_nonpositive_interval (ParseDuration : String → Int × Option GoError)
    (Getenv : String → String) (d : Int)
    (h : ParseDuration (getEnv Getenv "SYNC_INTERVAL" "60s") = (d, none)) (hd : d ≤ 0) :
    (LoadConfig Getenv ParseDuration).SyncInterval = d ∧
      startPeriodicSync (LoadConfig Getenv ParseDuration).SyncInterval = none := by
  have hi : (LoadConfig Getenv ParseDuration).SyncInterval = d := by
    simp [LoadConfig, parseDuration, h]
  exact ⟨hi, by rw [hi]; exact (startPeriodicSync_eq_none d).mpr hd⟩

/-- C23 does not hold of the code: with `SYNC_INTERVAL=0s` (or `-5s`), a valid
duration, `LoadConfig` yields the interval 0 (or minus five seconds), and
`startPeriodicSync` panics when it creates its ticker; the fallback to 60 s
covers only the strings that do not parse. -/
theorem C23_nonpositive_interval_reaches_ticker :
    (LoadConfig (envWithInterval "0s") sampleParseDurationSigned).SyncInterval = 0 ∧
      startPeriodicSync
        (LoadConfig (envWithInterval "0s") sampleParseDurationSigned).SyncInterval = none ∧
      (LoadConfig (envWithInterval "-5s") sampleParseDurationSigned).SyncInterval =
        -5 * Second ∧
      startPeriodicSync
        (LoadConfig (envWithInterval "-5s") sampleParseDurationSigned).SyncInterval = none ∧
      (LoadConfig (envWithInterval "abc") sampleParseDurationSigned).SyncInterval =
        60 * Second := by
  decide

end AlertSystem
